import Mathlib

/-!
Verification of the MagicaVoxel binary codec of zoxel
(`src/plugins/io_magicavoxel.py`, class `MagicaVoxelFile`).

The codec is embedded shallowly: byte streams are `List Nat` (entries < 256 on
every stream the program itself produces or reads), Python unbounded ints are
`Nat` (or `Int` where a value can go negative), Python dicts are insert-ordered
association lists, and each raise site of the Python code is a constructor of
`Err`.  The voxel grid is the external collaborator the codec accesses through
`get`/`set`/`resize` (class `voxel.VoxelData`, which is not among the analysed
sources), so the grid itself is modelled from the spec, as documented on
`Grid`.
-/

namespace MagicaVoxel

/-- The raise sites of the codec: bad magic (load line 164), palette capacity
(save line 81, carrying the reported color count), oversized dimensions
(load line 187), and IndexError from indexing a short `bytearray`
(load lines 196 and 206-209). -/
inductive Err where
  | format : Err
  | palette : Nat → Err
  | dims : Err
  | index : Err
deriving DecidableEq, Repr

/-- Modelled from the spec: the voxel-grid collaborator (`voxel.VoxelData` is
not part of the analysed sources).  Per spec section 3 it is a bounded
width x height x depth index space whose cells hold either "empty" or a raw
32-bit color; we encode empty as 0 (Python falsiness of `None`/0 under
`if vox:`), and keep the populated cells as an insertion-ordered association
list. -/
structure Grid where
  width : Nat
  height : Nat
  depth : Nat
  cells : List ((Nat × Nat × Nat) × Nat)
deriving DecidableEq, Repr

/-- Python dict read `d[k]` / `k in d.keys()`: the value stored under the
key, when present. -/
def dlookup : List (Nat × Nat) → Nat → Option Nat
  | [], _ => none
  | (k2, v) :: rest, k => if k2 = k then some v else dlookup rest k

/-- Python dict assignment `d[k] = v`: overwrite in place if the key exists,
otherwise append (dicts preserve insertion order). -/
def dinsert : List (Nat × Nat) → Nat → Nat → List (Nat × Nat)
  | [], k, v => [(k, v)]
  | (k2, v2) :: rest, k, v =>
    if k2 = k then (k, v) :: rest else (k2, v2) :: dinsert rest k v

/-- Lookup of a cell in the grid's cell store. -/
def cellsGet : List ((Nat × Nat × Nat) × Nat) → Nat → Nat → Nat → Option Nat
  | [], _, _, _ => none
  | (k, c) :: rest, x, y, z =>
    if k.1 = x ∧ k.2.1 = y ∧ k.2.2 = z then some c else cellsGet rest x y z

/-- Overwrite-or-append of a cell in the grid's cell store. -/
def cellsSet : List ((Nat × Nat × Nat) × Nat) → Nat → Nat → Nat → Nat →
    List ((Nat × Nat × Nat) × Nat)
  | [], x, y, z, c => [((x, y, z), c)]
  | (k, c2) :: rest, x, y, z, c =>
    if k.1 = x ∧ k.2.1 = y ∧ k.2.2 = z then ((x, y, z), c) :: rest
    else (k, c2) :: cellsSet rest x y z c

/-- Modelled from the spec: `get(x,y,z)` returns the cell color or empty; reads
outside the bounded index space are empty. -/
def Grid.get (g : Grid) (x y z : Nat) : Nat :=
  if x < g.width ∧ y < g.height ∧ z < g.depth then (cellsGet g.cells x y z).getD 0
  else 0

/-- Modelled from the spec: `set(x,y,z,color)` stores a color in a cell of the
bounded index space (writes outside it are ignored). -/
def Grid.set (g : Grid) (x y z color : Nat) : Grid :=
  if x < g.width ∧ y < g.height ∧ z < g.depth then
    ⟨g.width, g.height, g.depth, cellsSet g.cells x y z color⟩
  else g

/-- Function `resize(width, height, depth)`: reallocate to the given
dimensions, clearing prior contents (spec section 4.4 step 2). -/
def Grid.resize (w h d : Nat) : Grid := ⟨w, h, d, []⟩

/-- The iteration order shared by both traversals of save: `z` over depth
(outer), `y` over height, `x` over width (inner) - lines 67-69 and 131-133. -/
def loopOrder (g : Grid) : List (Nat × Nat × Nat) :=
  (List.range g.depth).flatMap fun z =>
    (List.range g.height).flatMap fun y =>
      (List.range g.width).map fun x => (z, y, x)

/-- The state of the counting/palette pass of save, with the source's variable
names (lines 63-66). -/
structure ScanSt where
  voxel_count : Nat
  paletteMap : List (Nat × Nat)
  palette : List (Nat × Nat)
  idx : Nat
deriving DecidableEq, Repr

/-- One cell of the counting/palette pass (lines 70-77).  Note the faithful
rendering of line 73: the membership test is `color in palette.keys()`, i.e.
against the keys of the idx-to-color dict `palette`, not against the colors
recorded in `paletteMap`. -/
def scanStep (g : Grid) : ScanSt → Nat × Nat × Nat → ScanSt
  | ⟨voxel_count, paletteMap, palette, idx⟩, (z, y, x) =>
    let vox := g.get x y z
    if vox ≠ 0 then
      if (dlookup palette (vox &&& 0xffffff00)).isSome then
        ⟨voxel_count + 1, paletteMap, palette, idx⟩
      else
        ⟨voxel_count + 1, dinsert paletteMap (vox &&& 0xffffff00) idx,
          dinsert palette idx (vox &&& 0xffffff00), idx + 1⟩
    else ⟨voxel_count, paletteMap, palette, idx⟩

/-- The full counting/palette scan of save (lines 63-77). -/
def scan (g : Grid) : ScanSt := (loopOrder g).foldl (scanStep g) ⟨0, [], [], 0⟩

/-- Little-endian uint32 write (helper `uint32`, lines 36-42): the Python byte
expressions `(v & 0xff)`, `(v & 0xff00) >> 8`, `(v & 0xff0000) >> 16` and
`(v & 0xff000000) >> 24` equal these div/mod forms for every unbounded int. -/
def u32 (v : Nat) : List Nat :=
  [v % 256, v / 256 % 256, v / 65536 % 256, v / 16777216 % 256]

/-- uint32 read (helper `uint32`, lines 44-48): up to 4 bytes are consumed; the
value is the little-endian integer when 4 bytes were available, else 0. -/
def readU32 (s : List Nat) : Nat :=
  match s.take 4 with
  | [b0, b1, b2, b3] => b0 ||| b1 <<< 8 ||| b2 <<< 16 ||| b3 <<< 24
  | _ => 0

def VOXtag : List Nat := [86, 79, 88, 32]

def MAINtag : List Nat := [77, 65, 73, 78]

def SIZEtag : List Nat := [83, 73, 90, 69]

def RGBAtag : List Nat := [82, 71, 66, 65]

def XYZItag : List Nat := [88, 89, 90, 73]

/-- One palette chunk entry on save (lines 114-123): three color bytes plus the
fixed 0xff opacity for assigned slots, 0xffffffff for unused slots. -/
def rgbaEntry (palette : List (Nat × Nat)) (i : Nat) : List Nat :=
  match dlookup palette i with
  | some color => [color / 16777216 % 256, color / 65536 % 256, color / 256 % 256, 0xff]
  | none => [0xff, 0xff, 0xff, 0xff]

/-- The 1024-byte palette chunk payload (lines 114-123). -/
def rgbaBody (palette : List (Nat × Nat)) : List Nat :=
  (List.range 256).flatMap (rgbaEntry palette)

/-- One cell of the record-writing pass of save (lines 131-148).  Note the
faithful rendering of line 134: the accessor is `get(x, z, y)`, axis-swapped
relative to the counting pass. -/
def recordStep (g : Grid) (pm : List (Nat × Nat)) : List Nat → Nat × Nat × Nat → List Nat
  | acc, (z, y, x) =>
    let vox := g.get x z y
    if vox ≠ 0 then
      let cidx := (dlookup pm (vox &&& 0xffffff00)).getD 0
      acc ++ [x, y, z, cidx]
    else acc

/-- The voxel records emitted by save (lines 131-148), in file order. -/
def voxelRecords (g : Grid) (pm : List (Nat × Nat)) : List Nat :=
  (loopOrder g).foldl (recordStep g pm) []

def chunk_size : Nat := 16 + 4 * 3

def chunk_rgba : Nat := 16 + 4 * 256

def chunk_voxel (voxel_count : Nat) : Nat := 16 + 4 + voxel_count * 4

/-- Line 89: the value written into the root chunk's children-length field. -/
def chunk_main (voxel_count : Nat) : Nat := 16 + chunk_size + chunk_rgba + chunk_voxel voxel_count

/-- The SIZE chunk as written by save (lines 103-108). -/
def sizeChunk (g : Grid) : List Nat :=
  SIZEtag ++ u32 (4 * 3) ++ u32 0 ++ u32 g.width ++ u32 g.height ++ u32 g.depth

/-- The RGBA chunk as written by save (lines 111-123). -/
def rgbaChunk (s : ScanSt) : List Nat :=
  RGBAtag ++ u32 (4 * 256) ++ u32 0 ++ rgbaBody s.palette

/-- The XYZI chunk as written by save (lines 126-148). -/
def xyziChunk (g : Grid) (s : ScanSt) : List Nat :=
  XYZItag ++ u32 (4 + s.voxel_count * 4) ++ u32 0 ++ u32 s.voxel_count ++
    voxelRecords g s.paletteMap

/-- Every byte save writes, in file order (lines 93-148). -/
def saveBytes (g : Grid) (s : ScanSt) : List Nat :=
  VOXtag ++ u32 150 ++ MAINtag ++ u32 0 ++ u32 (chunk_main s.voxel_count) ++
    sizeChunk g ++ rgbaChunk s ++ xyziChunk g s

/-- Method `MagicaVoxelFile.save` (lines 57-151): scan the grid, fail on lines
80-81 when the counter has reached 256, otherwise emit the file. -/
def save (g : Grid) : Except Err (List Nat) :=
  let s := scan g
  if 256 ≤ s.idx then Except.error (Err.palette s.idx)
  else Except.ok (saveBytes g s)

/-- The state of the chunk walk of load: the unread rest of the stream, the
remaining byte budget `left` (a Python int, so it can go negative), the grid
and the palette dict. -/
structure WalkSt where
  stream : List Nat
  left : Int
  grid : Grid
  palette : List (Nat × Nat)
deriving DecidableEq, Repr

/-- RGBA chunk body parse on load (lines 193-196): 256 four-byte entries packed
most-significant-byte first; a short read raises IndexError. -/
def readPalette : Nat → Nat → List Nat → List (Nat × Nat) →
    Except Err (List (Nat × Nat) × List Nat)
  | 0, _, s, pal => Except.ok (pal, s)
  | n + 1, i, s, pal =>
    match s.take 4 with
    | [b0, b1, b2, b3] =>
      readPalette n (i + 1) (s.drop 4)
        (dinsert pal i (b0 <<< 24 ||| b1 <<< 16 ||| b2 <<< 8 ||| b3))
    | _ => Except.error Err.index

/-- XYZI chunk body parse on load (lines 200-209): for each record
`set(b[0], b[2], b[1], color)` with the palette-resolved color, falling back to
0xffffffff for an unpopulated index; a short read raises IndexError. -/
def readVoxels : Nat → List Nat → List (Nat × Nat) → Grid → Except Err (Grid × List Nat)
  | 0, s, _, g => Except.ok (g, s)
  | n + 1, s, pal, g =>
    match s.take 4 with
    | [b0, b1, b2, b3] =>
      let color := (dlookup pal b3).getD 0xffffffff
      readVoxels n (s.drop 4) pal (g.set b0 b2 b1 color)
    | _ => Except.error Err.index

/-- One iteration of the chunk walk (lines 174-215): read a chunk header,
decrement `left` by 16, dispatch on the tag, then
`left = left - content_size + child_size` (line 215, in every branch). -/
def loadStep (st : WalkSt) : Except Err WalkSt :=
  let cid := st.stream.take 4
  let s1 := st.stream.drop 4
  let content_size := readU32 s1
  let s2 := s1.drop 4
  let child_size := readU32 s2
  let s3 := s2.drop 4
  let left1 := st.left - 16
  if cid = SIZEtag then
    let width := readU32 s3
    let s4 := s3.drop 4
    let height := readU32 s4
    let s5 := s4.drop 4
    let depth := readU32 s5
    let s6 := s5.drop 4
    if 127 < width ∨ 127 < height ∨ 127 < depth then Except.error Err.dims
    else Except.ok ⟨s6, left1 - (content_size : Int) + (child_size : Int),
      Grid.resize width height depth, st.palette⟩
  else if cid = RGBAtag then
    match readPalette 256 0 s3 st.palette with
    | Except.error e => Except.error e
    | Except.ok (pal, s4) =>
      Except.ok ⟨s4, left1 - (content_size : Int) + (child_size : Int), st.grid, pal⟩
  else if cid = XYZItag then
    let voxel_count := readU32 s3
    let s4 := s3.drop 4
    match readVoxels voxel_count s4 st.palette st.grid with
    | Except.error e => Except.error e
    | Except.ok (g2, s5) =>
      Except.ok ⟨s5, left1 - (content_size : Int) + (child_size : Int), g2, st.palette⟩
  else
    Except.ok ⟨s3.drop (content_size + child_size),
      left1 - (content_size : Int) + (child_size : Int), st.grid, st.palette⟩

/-- The chunk walk `while left: ...` (lines 173-215), fuel-indexed: `none`
means the loop has not finished within the given fuel. -/
def loadLoop : Nat → WalkSt → Option (Except Err WalkSt)
  | 0, _ => none
  | fuel + 1, st =>
    if st.left = 0 then some (Except.ok st)
    else
      match loadStep st with
      | Except.error e => some (Except.error e)
      | Except.ok st2 => loadLoop fuel st2

/-- The return paths of load after the walk: a raise propagates with the
handle unclosed, a normal loop exit runs the `f.close()` of line 217 and
returns the grid. -/
def finishLoad : Option (Except Err WalkSt) → Option (Except Err Grid × Bool)
  | none => none
  | some (Except.error e) => some (Except.error e, false)
  | some (Except.ok st) => some (Except.ok st.grid, true)

/-- Method `MagicaVoxelFile.load` (lines 154-217) on the grid `g0` the api
hands out.  Besides the resulting grid, the Bool records whether the
`f.close()` of line 217 was reached: every raise propagates out of `load`
before it. -/
def load (fuel : Nat) (g0 : Grid) (bytes : List Nat) : Option (Except Err Grid × Bool) :=
  let magic := bytes.take 4
  let s1 := bytes.drop 4
  let s2 := s1.drop 4
  if magic ≠ VOXtag then some (Except.error Err.format, false)
  else
    let s3 := s2.drop 4
    let content_size := readU32 s3
    let s4 := s3.drop 4
    let child_size := readU32 s4
    let s5 := s4.drop 4
    finishLoad (loadLoop fuel ⟨s5, (content_size : Int) + (child_size : Int), g0, []⟩)

/-- The chunk walk of load terminates on the given input. -/
def loadTerminates (g0 : Grid) (bytes : List Nat) : Prop :=
  ∃ fuel, (load fuel g0 bytes).isSome

def exceptIsOk {ε α : Type} : Except ε α → Bool
  | Except.ok _ => true
  | Except.error _ => false

/-- The alpha-masked colors of the non-empty cells, in scan order. -/
def maskedColors (g : Grid) : List Nat :=
  (loopOrder g).filterMap fun zyx =>
    if g.get zyx.2.2 zyx.2.1 zyx.1 ≠ 0
    then some (g.get zyx.2.2 zyx.2.1 zyx.1 &&& 0xffffff00) else none

/-- Modelled from the spec: the number of distinct alpha-masked colors among
the non-empty cells - what the spec's capacity claims quantify over. -/
def specDistinctColors (g : Grid) : Nat := (maskedColors g).dedup.length

/-- The number of non-empty cells a traversal of the whole grid visits. -/
def nonEmptyCount (g : Grid) (l : List (Nat × Nat × Nat)) : Nat :=
  (l.filter fun zyx => g.get zyx.2.2 zyx.2.1 zyx.1 != 0).length

/-- A cell whose color is either empty or survives masking into the range
where it can never collide with a palette index key (every key stays below
256): the shape of cell the palette-counting analysis below quantifies
over. -/
def goodCell (g : Grid) (zyx : Nat × Nat × Nat) : Prop :=
  g.get zyx.2.2 zyx.2.1 zyx.1 = 0 ∨ 256 ≤ g.get zyx.2.2 zyx.2.1 zyx.1 &&& 0xffffff00

/-- A rectangular single-layer table of cells: entry i sits at
(i % w, i / w, 0) and carries color f i. -/
def tableCells (w n : Nat) (f : Nat → Nat) : List ((Nat × Nat × Nat) × Nat) :=
  (List.range n).map fun i => ((i % w, i / w, 0), f i)

deriving instance DecidableEq for Except

/-! Concrete inputs used by the claims. -/

/-- The empty 0 x 0 x 0 grid, used as the grid load starts from. -/
def g0e : Grid := ⟨0, 0, 0, []⟩

/-- A 1 x 1 x 2 grid whose only voxel sits at in-memory (0, 0, 1). -/
def g1 : Grid := ⟨1, 1, 2, [((0, 0, 1), 0x10203000)]⟩

/-- A 16 x 16 x 1 grid with 256 voxels over 255 distinct masked colors: the
color of cell i is (i+1)*256, except cell 255 repeats color 256. -/
def g4 : Grid :=
  ⟨16, 16, 1, tableCells 16 256 fun i => if i = 255 then 256 else (i + 1) * 256⟩

/-- A 16 x 16 x 1 grid with 255 voxels of 255 distinct masked colors, each
color occurring exactly once. -/
def g5 : Grid :=
  ⟨16, 16, 1, tableCells 16 255 fun i => (i + 1) * 256⟩

/-- A 10 x 10 x 10 grid whose only voxel sits at in-memory (3, 5, 9) with
color 0x10203000. -/
def g7 : Grid := ⟨10, 10, 10, [((3, 5, 9), 0x10203000)]⟩

/-- A 2 x 2 x 2 grid with a single voxel, used for the unknown-chunk claim. -/
def g8 : Grid := ⟨2, 2, 2, [((1, 0, 1), 0x01020300)]⟩

/-- A 128 x 2 x 1 grid (width beyond the 127 limit) with a single voxel. -/
def g10 : Grid := ⟨128, 2, 1, [((0, 0, 0), 256)]⟩

/-- A 128 x 2 x 1 grid fully filled with one single color: 256 non-empty
cells, so the save-side scan counter reaches 256 although only one distinct
color is present. -/
def g10bad : Grid :=
  ⟨128, 2, 1, tableCells 128 256 fun _ => 256⟩

/-- A malformed stream: a valid magic and version, then a root chunk declaring
content length 1 and children length 0 with no further bytes. -/
def c3bad : List Nat := VOXtag ++ u32 150 ++ MAINtag ++ u32 1 ++ u32 0

def NOTEtag : List Nat := [78, 79, 84, 69]

/-- An unrecognized chunk: tag NOTE, content length 4, children length 0, and
a 4-byte payload. -/
def noteChunk : List Nat := NOTEtag ++ u32 4 ++ u32 0 ++ [9, 9, 9, 9]

/-- The file save writes for the grid g8. -/
def file8plain : List Nat := saveBytes g8 (scan g8)

/-- The same file with the NOTE chunk inserted between the SIZE and RGBA
chunks and the root children length grown by the 16 + 4 bytes the walk
accounts to that chunk. -/
def file8note : List Nat :=
  VOXtag ++ u32 150 ++ MAINtag ++ u32 0 ++ u32 (chunk_main (scan g8).voxel_count + 20) ++
    sizeChunk g8 ++ noteChunk ++ rgbaChunk (scan g8) ++ xyziChunk g8 (scan g8)

/-- A file whose SIZE chunk declares width 128: magic, version, a root chunk
of children length 40, and the SIZE chunk for 128 x 1 x 1. -/
def f128 : List Nat :=
  VOXtag ++ u32 150 ++ MAINtag ++ u32 0 ++ u32 40 ++
    SIZEtag ++ u32 12 ++ u32 0 ++ u32 128 ++ u32 1 ++ u32 1

/-- A walk state sitting at an unrecognized chunk, used to instantiate the
unknown-chunk theorem. -/
def stNote : WalkSt := ⟨noteChunk ++ [1, 2, 3], 99, g8, [(0, 5)]⟩

/-- The 1100 bytes save writes for the grid g7, as a literal list. -/
def file7 : List Nat := [
  86, 79, 88, 32, 150, 0, 0, 0, 77, 65, 73, 78, 0, 0, 0, 0, 84, 4, 0, 0, 83,
  73, 90, 69, 12, 0, 0, 0, 0, 0, 0, 0, 10, 0, 0, 0, 10, 0, 0, 0, 10, 0, 0,
  0, 82, 71, 66, 65, 0, 4, 0, 0, 0, 0, 0, 0, 16, 32, 48, 255, 255, 255, 255,
  255, 255, 255, 255, 255, 255, 255, 255, 255, 255, 255, 255, 255, 255, 255,
  255, 255, 255, 255, 255, 255, 255, 255, 255, 255, 255, 255, 255, 255, 255,
  255, 255, 255, 255, 255, 255, 255, 255, 255, 255, 255, 255, 255, 255, 255,
  255, 255, 255, 255, 255, 255, 255, 255, 255, 255, 255, 255, 255, 255, 255,
  255, 255, 255, 255, 255, 255, 255, 255, 255, 255, 255, 255, 255, 255, 255,
  255, 255, 255, 255, 255, 255, 255, 255, 255, 255, 255, 255, 255, 255, 255,
  255, 255, 255, 255, 255, 255, 255, 255, 255, 255, 255, 255, 255, 255, 255,
  255, 255, 255, 255, 255, 255, 255, 255, 255, 255, 255, 255, 255, 255, 255,
  255, 255, 255, 255, 255, 255, 255, 255, 255, 255, 255, 255, 255, 255, 255,
  255, 255, 255, 255, 255, 255, 255, 255, 255, 255, 255, 255, 255, 255, 255,
  255, 255, 255, 255, 255, 255, 255, 255, 255, 255, 255, 255, 255, 255, 255,
  255, 255, 255, 255, 255, 255, 255, 255, 255, 255, 255, 255, 255, 255, 255,
  255, 255, 255, 255, 255, 255, 255, 255, 255, 255, 255, 255, 255, 255, 255,
  255, 255, 255, 255, 255, 255, 255, 255, 255, 255, 255, 255, 255, 255, 255,
  255, 255, 255, 255, 255, 255, 255, 255, 255, 255, 255, 255, 255, 255, 255,
  255, 255, 255, 255, 255, 255, 255, 255, 255, 255, 255, 255, 255, 255, 255,
  255, 255, 255, 255, 255, 255, 255, 255, 255, 255, 255, 255, 255, 255, 255,
  255, 255, 255, 255, 255, 255, 255, 255, 255, 255, 255, 255, 255, 255, 255,
  255, 255, 255, 255, 255, 255, 255, 255, 255, 255, 255, 255, 255, 255, 255,
  255, 255, 255, 255, 255, 255, 255, 255, 255, 255, 255, 255, 255, 255, 255,
  255, 255, 255, 255, 255, 255, 255, 255, 255, 255, 255, 255, 255, 255, 255,
  255, 255, 255, 255, 255, 255, 255, 255, 255, 255, 255, 255, 255, 255, 255,
  255, 255, 255, 255, 255, 255, 255, 255, 255, 255, 255, 255, 255, 255, 255,
  255, 255, 255, 255, 255, 255, 255, 255, 255, 255, 255, 255, 255, 255, 255,
  255, 255, 255, 255, 255, 255, 255, 255, 255, 255, 255, 255, 255, 255, 255,
  255, 255, 255, 255, 255, 255, 255, 255, 255, 255, 255, 255, 255, 255, 255,
  255, 255, 255, 255, 255, 255, 255, 255, 255, 255, 255, 255, 255, 255, 255,
  255, 255, 255, 255, 255, 255, 255, 255, 255, 255, 255, 255, 255, 255, 255,
  255, 255, 255, 255, 255, 255, 255, 255, 255, 255, 255, 255, 255, 255, 255,
  255, 255, 255, 255, 255, 255, 255, 255, 255, 255, 255, 255, 255, 255, 255,
  255, 255, 255, 255, 255, 255, 255, 255, 255, 255, 255, 255, 255, 255, 255,
  255, 255, 255, 255, 255, 255, 255, 255, 255, 255, 255, 255, 255, 255, 255,
  255, 255, 255, 255, 255, 255, 255, 255, 255, 255, 255, 255, 255, 255, 255,
  255, 255, 255, 255, 255, 255, 255, 255, 255, 255, 255, 255, 255, 255, 255,
  255, 255, 255, 255, 255, 255, 255, 255, 255, 255, 255, 255, 255, 255, 255,
  255, 255, 255, 255, 255, 255, 255, 255, 255, 255, 255, 255, 255, 255, 255,
  255, 255, 255, 255, 255, 255, 255, 255, 255, 255, 255, 255, 255, 255, 255,
  255, 255, 255, 255, 255, 255, 255, 255, 255, 255, 255, 255, 255, 255, 255,
  255, 255, 255, 255, 255, 255, 255, 255, 255, 255, 255, 255, 255, 255, 255,
  255, 255, 255, 255, 255, 255, 255, 255, 255, 255, 255, 255, 255, 255, 255,
  255, 255, 255, 255, 255, 255, 255, 255, 255, 255, 255, 255, 255, 255, 255,
  255, 255, 255, 255, 255, 255, 255, 255, 255, 255, 255, 255, 255, 255, 255,
  255, 255, 255, 255, 255, 255, 255, 255, 255, 255, 255, 255, 255, 255, 255,
  255, 255, 255, 255, 255, 255, 255, 255, 255, 255, 255, 255, 255, 255, 255,
  255, 255, 255, 255, 255, 255, 255, 255, 255, 255, 255, 255, 255, 255, 255,
  255, 255, 255, 255, 255, 255, 255, 255, 255, 255, 255, 255, 255, 255, 255,
  255, 255, 255, 255, 255, 255, 255, 255, 255, 255, 255, 255, 255, 255, 255,
  255, 255, 255, 255, 255, 255, 255, 255, 255, 255, 255, 255, 255, 255, 255,
  255, 255, 255, 255, 255, 255, 255, 255, 255, 255, 255, 255, 255, 255, 255,
  255, 255, 255, 255, 255, 255, 255, 255, 255, 255, 255, 255, 255, 255, 255,
  255, 255, 255, 255, 255, 255, 255, 255, 255, 255, 255, 255, 255, 255, 255,
  255, 255, 255, 255, 255, 255, 255, 255, 255, 255, 255, 255, 255, 255, 255,
  255, 255, 255, 255, 255, 255, 255, 255, 255, 255, 255, 255, 255, 255, 255,
  255, 255, 255, 255, 255, 255, 255, 255, 255, 255, 255, 255, 255, 255, 255,
  255, 255, 255, 255, 255, 255, 255, 255, 255, 255, 255, 255, 255, 255, 255,
  255, 255, 255, 255, 255, 255, 255, 255, 255, 255, 255, 255, 255, 255, 255,
  255, 255, 255, 255, 255, 255, 255, 255, 255, 255, 255, 255, 255, 255, 255,
  255, 255, 255, 255, 255, 255, 255, 255, 255, 255, 255, 255, 255, 255, 255,
  255, 255, 255, 255, 255, 255, 255, 255, 255, 255, 255, 255, 255, 255, 255,
  255, 255, 255, 255, 255, 255, 255, 255, 255, 255, 255, 255, 255, 255, 255,
  255, 255, 255, 255, 255, 255, 255, 255, 255, 255, 255, 255, 255, 255, 255,
  255, 255, 255, 255, 255, 255, 255, 255, 255, 255, 255, 255, 255, 255, 255,
  255, 255, 255, 255, 255, 255, 255, 255, 255, 255, 255, 255, 255, 255, 255,
  255, 255, 255, 255, 255, 255, 255, 255, 255, 255, 255, 255, 255, 255, 255,
  255, 255, 255, 255, 255, 255, 255, 255, 255, 255, 255, 255, 255, 255, 255,
  255, 255, 255, 255, 255, 255, 255, 255, 255, 255, 255, 255, 255, 255, 255,
  255, 255, 255, 255, 255, 255, 255, 255, 255, 255, 255, 255, 255, 255, 255,
  255, 255, 255, 255, 255, 255, 255, 255, 255, 255, 255, 255, 88, 89, 90,
  73, 8, 0, 0, 0, 0, 0, 0, 0, 1, 0, 0, 0, 3, 9, 5, 0]

/-- The 1100 bytes of file8plain, as a literal list. -/
def lit8plain : List Nat := [
  86, 79, 88, 32, 150, 0, 0, 0, 77, 65, 73, 78, 0, 0, 0, 0, 84, 4, 0, 0, 83,
  73, 90, 69, 12, 0, 0, 0, 0, 0, 0, 0, 2, 0, 0, 0, 2, 0, 0, 0, 2, 0, 0, 0,
  82, 71, 66, 65, 0, 4, 0, 0, 0, 0, 0, 0, 1, 2, 3, 255, 255, 255, 255, 255,
  255, 255, 255, 255, 255, 255, 255, 255, 255, 255, 255, 255, 255, 255, 255,
  255, 255, 255, 255, 255, 255, 255, 255, 255, 255, 255, 255, 255, 255, 255,
  255, 255, 255, 255, 255, 255, 255, 255, 255, 255, 255, 255, 255, 255, 255,
  255, 255, 255, 255, 255, 255, 255, 255, 255, 255, 255, 255, 255, 255, 255,
  255, 255, 255, 255, 255, 255, 255, 255, 255, 255, 255, 255, 255, 255, 255,
  255, 255, 255, 255, 255, 255, 255, 255, 255, 255, 255, 255, 255, 255, 255,
  255, 255, 255, 255, 255, 255, 255, 255, 255, 255, 255, 255, 255, 255, 255,
  255, 255, 255, 255, 255, 255, 255, 255, 255, 255, 255, 255, 255, 255, 255,
  255, 255, 255, 255, 255, 255, 255, 255, 255, 255, 255, 255, 255, 255, 255,
  255, 255, 255, 255, 255, 255, 255, 255, 255, 255, 255, 255, 255, 255, 255,
  255, 255, 255, 255, 255, 255, 255, 255, 255, 255, 255, 255, 255, 255, 255,
  255, 255, 255, 255, 255, 255, 255, 255, 255, 255, 255, 255, 255, 255, 255,
  255, 255, 255, 255, 255, 255, 255, 255, 255, 255, 255, 255, 255, 255, 255,
  255, 255, 255, 255, 255, 255, 255, 255, 255, 255, 255, 255, 255, 255, 255,
  255, 255, 255, 255, 255, 255, 255, 255, 255, 255, 255, 255, 255, 255, 255,
  255, 255, 255, 255, 255, 255, 255, 255, 255, 255, 255, 255, 255, 255, 255,
  255, 255, 255, 255, 255, 255, 255, 255, 255, 255, 255, 255, 255, 255, 255,
  255, 255, 255, 255, 255, 255, 255, 255, 255, 255, 255, 255, 255, 255, 255,
  255, 255, 255, 255, 255, 255, 255, 255, 255, 255, 255, 255, 255, 255, 255,
  255, 255, 255, 255, 255, 255, 255, 255, 255, 255, 255, 255, 255, 255, 255,
  255, 255, 255, 255, 255, 255, 255, 255, 255, 255, 255, 255, 255, 255, 255,
  255, 255, 255, 255, 255, 255, 255, 255, 255, 255, 255, 255, 255, 255, 255,
  255, 255, 255, 255, 255, 255, 255, 255, 255, 255, 255, 255, 255, 255, 255,
  255, 255, 255, 255, 255, 255, 255, 255, 255, 255, 255, 255, 255, 255, 255,
  255, 255, 255, 255, 255, 255, 255, 255, 255, 255, 255, 255, 255, 255, 255,
  255, 255, 255, 255, 255, 255, 255, 255, 255, 255, 255, 255, 255, 255, 255,
  255, 255, 255, 255, 255, 255, 255, 255, 255, 255, 255, 255, 255, 255, 255,
  255, 255, 255, 255, 255, 255, 255, 255, 255, 255, 255, 255, 255, 255, 255,
  255, 255, 255, 255, 255, 255, 255, 255, 255, 255, 255, 255, 255, 255, 255,
  255, 255, 255, 255, 255, 255, 255, 255, 255, 255, 255, 255, 255, 255, 255,
  255, 255, 255, 255, 255, 255, 255, 255, 255, 255, 255, 255, 255, 255, 255,
  255, 255, 255, 255, 255, 255, 255, 255, 255, 255, 255, 255, 255, 255, 255,
  255, 255, 255, 255, 255, 255, 255, 255, 255, 255, 255, 255, 255, 255, 255,
  255, 255, 255, 255, 255, 255, 255, 255, 255, 255, 255, 255, 255, 255, 255,
  255, 255, 255, 255, 255, 255, 255, 255, 255, 255, 255, 255, 255, 255, 255,
  255, 255, 255, 255, 255, 255, 255, 255, 255, 255, 255, 255, 255, 255, 255,
  255, 255, 255, 255, 255, 255, 255, 255, 255, 255, 255, 255, 255, 255, 255,
  255, 255, 255, 255, 255, 255, 255, 255, 255, 255, 255, 255, 255, 255, 255,
  255, 255, 255, 255, 255, 255, 255, 255, 255, 255, 255, 255, 255, 255, 255,
  255, 255, 255, 255, 255, 255, 255, 255, 255, 255, 255, 255, 255, 255, 255,
  255, 255, 255, 255, 255, 255, 255, 255, 255, 255, 255, 255, 255, 255, 255,
  255, 255, 255, 255, 255, 255, 255, 255, 255, 255, 255, 255, 255, 255, 255,
  255, 255, 255, 255, 255, 255, 255, 255, 255, 255, 255, 255, 255, 255, 255,
  255, 255, 255, 255, 255, 255, 255, 255, 255, 255, 255, 255, 255, 255, 255,
  255, 255, 255, 255, 255, 255, 255, 255, 255, 255, 255, 255, 255, 255, 255,
  255, 255, 255, 255, 255, 255, 255, 255, 255, 255, 255, 255, 255, 255, 255,
  255, 255, 255, 255, 255, 255, 255, 255, 255, 255, 255, 255, 255, 255, 255,
  255, 255, 255, 255, 255, 255, 255, 255, 255, 255, 255, 255, 255, 255, 255,
  255, 255, 255, 255, 255, 255, 255, 255, 255, 255, 255, 255, 255, 255, 255,
  255, 255, 255, 255, 255, 255, 255, 255, 255, 255, 255, 255, 255, 255, 255,
  255, 255, 255, 255, 255, 255, 255, 255, 255, 255, 255, 255, 255, 255, 255,
  255, 255, 255, 255, 255, 255, 255, 255, 255, 255, 255, 255, 255, 255, 255,
  255, 255, 255, 255, 255, 255, 255, 255, 255, 255, 255, 255, 255, 255, 255,
  255, 255, 255, 255, 255, 255, 255, 255, 255, 255, 255, 255, 255, 255, 255,
  255, 255, 255, 255, 255, 255, 255, 255, 255, 255, 255, 255, 255, 255, 255,
  255, 255, 255, 255, 255, 255, 255, 255, 255, 255, 255, 255, 255, 255, 255,
  255, 255, 255, 255, 255, 255, 255, 255, 255, 255, 255, 255, 255, 255, 255,
  255, 255, 255, 255, 255, 255, 255, 255, 255, 255, 255, 255, 255, 255, 255,
  255, 255, 255, 255, 255, 255, 255, 255, 255, 255, 255, 255, 255, 255, 255,
  255, 255, 255, 255, 255, 255, 255, 255, 255, 255, 255, 255, 255, 255, 255,
  255, 255, 255, 255, 255, 255, 255, 255, 255, 255, 255, 255, 255, 255, 255,
  255, 255, 255, 255, 255, 255, 255, 255, 255, 255, 255, 255, 255, 255, 255,
  255, 255, 255, 255, 255, 255, 255, 255, 255, 255, 255, 255, 255, 255, 255,
  255, 255, 255, 255, 255, 255, 255, 255, 255, 255, 255, 255, 255, 255, 255,
  255, 255, 255, 255, 255, 255, 255, 255, 255, 255, 255, 255, 255, 255, 255,
  255, 255, 255, 255, 255, 255, 255, 255, 255, 255, 255, 255, 255, 255, 255,
  255, 255, 255, 255, 255, 255, 255, 255, 255, 255, 255, 255, 255, 255, 255,
  255, 255, 255, 255, 255, 255, 255, 255, 255, 255, 255, 88, 89, 90, 73, 8,
  0, 0, 0, 0, 0, 0, 0, 1, 0, 0, 0, 1, 1, 0, 0]

/-- The 1116 bytes of file8note, as a literal list. -/
def lit8note : List Nat := [
  86, 79, 88, 32, 150, 0, 0, 0, 77, 65, 73, 78, 0, 0, 0, 0, 104, 4, 0, 0,
  83, 73, 90, 69, 12, 0, 0, 0, 0, 0, 0, 0, 2, 0, 0, 0, 2, 0, 0, 0, 2, 0, 0,
  0, 78, 79, 84, 69, 4, 0, 0, 0, 0, 0, 0, 0, 9, 9, 9, 9, 82, 71, 66, 65, 0,
  4, 0, 0, 0, 0, 0, 0, 1, 2, 3, 255, 255, 255, 255, 255, 255, 255, 255, 255,
  255, 255, 255, 255, 255, 255, 255, 255, 255, 255, 255, 255, 255, 255, 255,
  255, 255, 255, 255, 255, 255, 255, 255, 255, 255, 255, 255, 255, 255, 255,
  255, 255, 255, 255, 255, 255, 255, 255, 255, 255, 255, 255, 255, 255, 255,
  255, 255, 255, 255, 255, 255, 255, 255, 255, 255, 255, 255, 255, 255, 255,
  255, 255, 255, 255, 255, 255, 255, 255, 255, 255, 255, 255, 255, 255, 255,
  255, 255, 255, 255, 255, 255, 255, 255, 255, 255, 255, 255, 255, 255, 255,
  255, 255, 255, 255, 255, 255, 255, 255, 255, 255, 255, 255, 255, 255, 255,
  255, 255, 255, 255, 255, 255, 255, 255, 255, 255, 255, 255, 255, 255, 255,
  255, 255, 255, 255, 255, 255, 255, 255, 255, 255, 255, 255, 255, 255, 255,
  255, 255, 255, 255, 255, 255, 255, 255, 255, 255, 255, 255, 255, 255, 255,
  255, 255, 255, 255, 255, 255, 255, 255, 255, 255, 255, 255, 255, 255, 255,
  255, 255, 255, 255, 255, 255, 255, 255, 255, 255, 255, 255, 255, 255, 255,
  255, 255, 255, 255, 255, 255, 255, 255, 255, 255, 255, 255, 255, 255, 255,
  255, 255, 255, 255, 255, 255, 255, 255, 255, 255, 255, 255, 255, 255, 255,
  255, 255, 255, 255, 255, 255, 255, 255, 255, 255, 255, 255, 255, 255, 255,
  255, 255, 255, 255, 255, 255, 255, 255, 255, 255, 255, 255, 255, 255, 255,
  255, 255, 255, 255, 255, 255, 255, 255, 255, 255, 255, 255, 255, 255, 255,
  255, 255, 255, 255, 255, 255, 255, 255, 255, 255, 255, 255, 255, 255, 255,
  255, 255, 255, 255, 255, 255, 255, 255, 255, 255, 255, 255, 255, 255, 255,
  255, 255, 255, 255, 255, 255, 255, 255, 255, 255, 255, 255, 255, 255, 255,
  255, 255, 255, 255, 255, 255, 255, 255, 255, 255, 255, 255, 255, 255, 255,
  255, 255, 255, 255, 255, 255, 255, 255, 255, 255, 255, 255, 255, 255, 255,
  255, 255, 255, 255, 255, 255, 255, 255, 255, 255, 255, 255, 255, 255, 255,
  255, 255, 255, 255, 255, 255, 255, 255, 255, 255, 255, 255, 255, 255, 255,
  255, 255, 255, 255, 255, 255, 255, 255, 255, 255, 255, 255, 255, 255, 255,
  255, 255, 255, 255, 255, 255, 255, 255, 255, 255, 255, 255, 255, 255, 255,
  255, 255, 255, 255, 255, 255, 255, 255, 255, 255, 255, 255, 255, 255, 255,
  255, 255, 255, 255, 255, 255, 255, 255, 255, 255, 255, 255, 255, 255, 255,
  255, 255, 255, 255, 255, 255, 255, 255, 255, 255, 255, 255, 255, 255, 255,
  255, 255, 255, 255, 255, 255, 255, 255, 255, 255, 255, 255, 255, 255, 255,
  255, 255, 255, 255, 255, 255, 255, 255, 255, 255, 255, 255, 255, 255, 255,
  255, 255, 255, 255, 255, 255, 255, 255, 255, 255, 255, 255, 255, 255, 255,
  255, 255, 255, 255, 255, 255, 255, 255, 255, 255, 255, 255, 255, 255, 255,
  255, 255, 255, 255, 255, 255, 255, 255, 255, 255, 255, 255, 255, 255, 255,
  255, 255, 255, 255, 255, 255, 255, 255, 255, 255, 255, 255, 255, 255, 255,
  255, 255, 255, 255, 255, 255, 255, 255, 255, 255, 255, 255, 255, 255, 255,
  255, 255, 255, 255, 255, 255, 255, 255, 255, 255, 255, 255, 255, 255, 255,
  255, 255, 255, 255, 255, 255, 255, 255, 255, 255, 255, 255, 255, 255, 255,
  255, 255, 255, 255, 255, 255, 255, 255, 255, 255, 255, 255, 255, 255, 255,
  255, 255, 255, 255, 255, 255, 255, 255, 255, 255, 255, 255, 255, 255, 255,
  255, 255, 255, 255, 255, 255, 255, 255, 255, 255, 255, 255, 255, 255, 255,
  255, 255, 255, 255, 255, 255, 255, 255, 255, 255, 255, 255, 255, 255, 255,
  255, 255, 255, 255, 255, 255, 255, 255, 255, 255, 255, 255, 255, 255, 255,
  255, 255, 255, 255, 255, 255, 255, 255, 255, 255, 255, 255, 255, 255, 255,
  255, 255, 255, 255, 255, 255, 255, 255, 255, 255, 255, 255, 255, 255, 255,
  255, 255, 255, 255, 255, 255, 255, 255, 255, 255, 255, 255, 255, 255, 255,
  255, 255, 255, 255, 255, 255, 255, 255, 255, 255, 255, 255, 255, 255, 255,
  255, 255, 255, 255, 255, 255, 255, 255, 255, 255, 255, 255, 255, 255, 255,
  255, 255, 255, 255, 255, 255, 255, 255, 255, 255, 255, 255, 255, 255, 255,
  255, 255, 255, 255, 255, 255, 255, 255, 255, 255, 255, 255, 255, 255, 255,
  255, 255, 255, 255, 255, 255, 255, 255, 255, 255, 255, 255, 255, 255, 255,
  255, 255, 255, 255, 255, 255, 255, 255, 255, 255, 255, 255, 255, 255, 255,
  255, 255, 255, 255, 255, 255, 255, 255, 255, 255, 255, 255, 255, 255, 255,
  255, 255, 255, 255, 255, 255, 255, 255, 255, 255, 255, 255, 255, 255, 255,
  255, 255, 255, 255, 255, 255, 255, 255, 255, 255, 255, 255, 255, 255, 255,
  255, 255, 255, 255, 255, 255, 255, 255, 255, 255, 255, 255, 255, 255, 255,
  255, 255, 255, 255, 255, 255, 255, 255, 255, 255, 255, 255, 255, 255, 255,
  255, 255, 255, 255, 255, 255, 255, 255, 255, 255, 255, 255, 255, 255, 255,
  255, 255, 255, 255, 255, 255, 255, 255, 255, 255, 255, 255, 255, 255, 255,
  255, 255, 255, 255, 255, 255, 255, 255, 255, 255, 255, 255, 255, 255, 255,
  255, 255, 255, 255, 255, 255, 255, 255, 255, 255, 255, 255, 255, 255, 255,
  255, 255, 255, 255, 255, 255, 255, 255, 255, 255, 255, 255, 255, 255, 255,
  255, 255, 255, 255, 255, 255, 255, 255, 255, 255, 255, 255, 255, 255, 255,
  255, 255, 255, 255, 255, 255, 255, 255, 255, 255, 255, 255, 255, 255, 255,
  255, 255, 255, 255, 255, 255, 255, 255, 255, 255, 255, 255, 255, 255, 255,
  255, 255, 255, 255, 255, 255, 255, 255, 255, 255, 255, 255, 255, 255, 255,
  255, 255, 255, 255, 255, 255, 255, 255, 255, 255, 255, 255, 255, 255, 255,
  255, 255, 255, 255, 255, 255, 255, 88, 89, 90, 73, 8, 0, 0, 0, 0, 0, 0, 0,
  1, 0, 0, 0, 1, 1, 0, 0]

/-! Helper lemmas. -/

theorem or_shl_eq_add {a : Nat} (b k : Nat) (h : a < 2 ^ k) :
    a ||| b <<< k = a + b * 2 ^ k := by
  rw [Nat.shiftLeft_eq, Nat.mul_comm b (2 ^ k), Nat.or_comm,
    ← Nat.mul_add_lt_is_or h b]
  omega

theorem readU32_u32 (v : Nat) (rest : List Nat) (h : v < 4294967296) :
    readU32 (u32 v ++ rest) = v := by
  have h8 : (2 : Nat) ^ 8 = 256 := by norm_num
  have h16 : (2 : Nat) ^ 16 = 65536 := by norm_num
  have h24 : (2 : Nat) ^ 24 = 16777216 := by norm_num
  have ht : (u32 v ++ rest).take 4 = u32 v := List.take_left' rfl
  unfold readU32
  rw [ht]
  simp only [u32]
  rw [or_shl_eq_add _ 8 (by rw [h8]; omega)]
  rw [or_shl_eq_add _ 16 (by rw [h16, h8]; omega)]
  rw [or_shl_eq_add _ 24 (by rw [h24, h16, h8]; omega)]
  rw [h8, h16, h24]
  omega

theorem length_u32 (v : Nat) : (u32 v).length = 4 := rfl

theorem readU32_u32_nil (v : Nat) (h : v < 4294967296) : readU32 (u32 v) = v := by
  have h2 := readU32_u32 v [] h
  rwa [List.append_nil] at h2

theorem readU32_nil : readU32 [] = 0 := rfl

theorem scanStep_voxel_count_le (g : Grid) (s : ScanSt) (c : Nat × Nat × Nat) :
    (scanStep g s c).voxel_count ≤ s.voxel_count + 1 := by
  obtain ⟨vc, pm, pal, idx⟩ := s
  obtain ⟨z, y, x⟩ := c
  simp only [scanStep]
  split
  · split <;> simp
  · simp

theorem foldl_scan_voxel_count_le (g : Grid) (l : List (Nat × Nat × Nat)) :
    ∀ s : ScanSt, ((l.foldl (scanStep g) s).voxel_count) ≤ s.voxel_count + l.length := by
  induction l with
  | nil => intro s; simp
  | cons c l ih =>
    intro s
    have h1 := scanStep_voxel_count_le g s c
    have h2 := ih (scanStep g s c)
    simp only [List.foldl_cons, List.length_cons]
    omega

theorem length_flatMap_le {α β : Type} (l : List α) (f : α → List β) (m : Nat)
    (h : ∀ a, (f a).length ≤ m) : (l.flatMap f).length ≤ l.length * m := by
  induction l with
  | nil => simp
  | cons a l ih =>
    rw [List.flatMap_cons, List.length_append, List.length_cons]
    have := h a
    have h2 := ih
    calc (f a).length + (l.flatMap f).length ≤ m + l.length * m := by omega
    _ = (l.length + 1) * m := by ring

theorem loopOrder_length_le (g : Grid) :
    (loopOrder g).length ≤ g.depth * (g.height * g.width) := by
  unfold loopOrder
  have h1 : ∀ z : Nat,
      ((List.range g.height).flatMap fun y =>
        (List.range g.width).map fun x => (z, y, x)).length ≤ g.height * g.width := by
    intro z
    have h2 := length_flatMap_le (List.range g.height)
      (fun y => (List.range g.width).map fun x => (z, y, x)) g.width
      (fun y => by simp)
    simpa using h2
  have h3 := length_flatMap_le (List.range g.depth)
    (fun z => (List.range g.height).flatMap fun y =>
      (List.range g.width).map fun x => (z, y, x)) (g.height * g.width) h1
  simpa using h3

theorem scan_voxel_count_le (g : Grid) :
    (scan g).voxel_count ≤ g.depth * (g.height * g.width) := by
  have h1 := foldl_scan_voxel_count_le g (loopOrder g) ⟨0, [], [], 0⟩
  have h2 := loopOrder_length_le g
  dsimp only at h1
  unfold scan
  omega

theorem loadStep_nil (L : Int) (g : Grid) (pal : List (Nat × Nat)) :
    loadStep ⟨[], L, g, pal⟩ = Except.ok ⟨[], L - 16, g, pal⟩ := by
  unfold loadStep
  simp [readU32_nil, SIZEtag, RGBAtag, XYZItag]

theorem loadLoop_stuck (g : Grid) (pal : List (Nat × Nat)) :
    ∀ (fuel k : Nat), loadLoop fuel ⟨[], 1 - 16 * (k : Int), g, pal⟩ = none := by
  intro fuel
  induction fuel with
  | zero => intro k; rfl
  | succ n ih =>
    intro k
    unfold loadLoop
    rw [if_neg (by show ¬(1 - 16 * (k : Int) = 0); omega)]
    rw [loadStep_nil]
    have e : (1 : Int) - 16 * (k : Int) - 16 = 1 - 16 * ((k + 1 : Nat) : Int) := by
      push_cast
      ring
    rw [e]
    exact ih (k + 1)

set_option maxRecDepth 1000000
set_option maxHeartbeats 4000000

theorem load_eq_walk (fuel : Nat) (g0 : Grid) (v c h : Nat) (rest : List Nat)
    (hc : c < 4294967296) (hh : h < 4294967296) :
    load fuel g0 (VOXtag ++ (u32 v ++ (MAINtag ++ (u32 c ++ (u32 h ++ rest))))) =
      finishLoad (loadLoop fuel ⟨rest, (c : Int) + (h : Int), g0, []⟩) := by
  unfold load
  dsimp only
  rw [show (VOXtag ++ (u32 v ++ (MAINtag ++ (u32 c ++ (u32 h ++ rest))))).take 4 = VOXtag from
    List.take_left' rfl]
  rw [if_neg (by simp)]
  rw [show (VOXtag ++ (u32 v ++ (MAINtag ++ (u32 c ++ (u32 h ++ rest))))).drop 4 =
    u32 v ++ (MAINtag ++ (u32 c ++ (u32 h ++ rest))) from List.drop_left' rfl]
  rw [show (u32 v ++ (MAINtag ++ (u32 c ++ (u32 h ++ rest)))).drop 4 =
    MAINtag ++ (u32 c ++ (u32 h ++ rest)) from List.drop_left' rfl]
  rw [show (MAINtag ++ (u32 c ++ (u32 h ++ rest))).drop 4 =
    u32 c ++ (u32 h ++ rest) from List.drop_left' rfl]
  rw [readU32_u32 c (u32 h ++ rest) hc]
  rw [show (u32 c ++ (u32 h ++ rest)).drop 4 = u32 h ++ rest from List.drop_left' rfl]
  rw [readU32_u32 h rest hh]
  rw [show (u32 h ++ rest).drop 4 = rest from List.drop_left' rfl]

theorem loadStep_size_toobig (L : Int) (g0 : Grid) (pal : List (Nat × Nat))
    (w h d : Nat) (rest : List Nat)
    (hw : w < 4294967296) (hh : h < 4294967296) (hd : d < 4294967296)
    (hbig : 127 < w ∨ 127 < h ∨ 127 < d) :
    loadStep ⟨SIZEtag ++ (u32 12 ++ (u32 0 ++ (u32 w ++ (u32 h ++ (u32 d ++ rest))))),
      L, g0, pal⟩ = Except.error Err.dims := by
  unfold loadStep
  dsimp only
  rw [show (SIZEtag ++ (u32 12 ++ (u32 0 ++ (u32 w ++ (u32 h ++ (u32 d ++ rest)))))).take 4 =
    SIZEtag from List.take_left' rfl]
  rw [if_pos rfl]
  rw [show (SIZEtag ++ (u32 12 ++ (u32 0 ++ (u32 w ++ (u32 h ++ (u32 d ++ rest)))))).drop 4 =
    u32 12 ++ (u32 0 ++ (u32 w ++ (u32 h ++ (u32 d ++ rest)))) from List.drop_left' rfl]
  rw [show (u32 12 ++ (u32 0 ++ (u32 w ++ (u32 h ++ (u32 d ++ rest))))).drop 4 =
    u32 0 ++ (u32 w ++ (u32 h ++ (u32 d ++ rest))) from List.drop_left' rfl]
  rw [show (u32 0 ++ (u32 w ++ (u32 h ++ (u32 d ++ rest)))).drop 4 =
    u32 w ++ (u32 h ++ (u32 d ++ rest)) from List.drop_left' rfl]
  rw [readU32_u32 w (u32 h ++ (u32 d ++ rest)) hw]
  rw [show (u32 w ++ (u32 h ++ (u32 d ++ rest))).drop 4 =
    u32 h ++ (u32 d ++ rest) from List.drop_left' rfl]
  rw [readU32_u32 h (u32 d ++ rest) hh]
  rw [show (u32 h ++ (u32 d ++ rest)).drop 4 = u32 d ++ rest from List.drop_left' rfl]
  rw [readU32_u32 d rest hd]
  rw [if_pos hbig]

theorem loadLoop_succ (n : Nat) (st : WalkSt) :
    loadLoop (n + 1) st =
      if st.left = 0 then some (Except.ok st)
      else
        match loadStep st with
        | Except.error e => some (Except.error e)
        | Except.ok st2 => loadLoop n st2 := rfl

theorem load_c3bad (fuel : Nat) : load fuel g0e c3bad = none := by
  have hb : c3bad = VOXtag ++ (u32 150 ++ (MAINtag ++ (u32 1 ++ (u32 0 ++ [])))) := by
    simp [c3bad]
  rw [hb, load_eq_walk fuel g0e 150 1 0 [] (by norm_num) (by norm_num)]
  have e2 : ((1 : Nat) : Int) + ((0 : Nat) : Int) = 1 - 16 * ((0 : Nat) : Int) := by norm_num
  rw [e2, loadLoop_stuck]
  rfl


theorem finishLoad_closed (r : Option (Except Err WalkSt)) :
    match finishLoad r with
    | some p => p.2 = exceptIsOk p.1
    | none => True := by
  cases r with
  | none => trivial
  | some e =>
    cases e with
    | error e => rfl
    | ok st => rfl

/-! Machinery for the palette-counting analysis of the 256-cell grids and
the staged byte-level facts used by the round-trip claims. -/

theorem dlookup_eq_lookup (k : Nat) :
    ∀ d : List (Nat × Nat), dlookup d k = d.lookup k := by
  intro d
  induction d with
  | nil => rfl
  | cons p rest ih =>
    obtain ⟨k2, v⟩ := p
    by_cases h : k2 = k
    · subst h
      simp [dlookup, List.lookup]
    · rw [List.lookup]
      have hb : (k == k2) = false := by
        simp
        intro hk
        exact h hk.symm
      rw [hb]
      simp only [dlookup, if_neg h]
      exact ih

theorem cellsGet_range' (w : Nat) (hw : 0 < w) (f : Nat → Nat) (x y : Nat) (hx : x < w) :
    ∀ (n a : Nat),
      cellsGet ((List.range' a n).map fun i => ((i % w, i / w, 0), f i)) x y 0 =
        if a ≤ w * y + x ∧ w * y + x < a + n then some (f (w * y + x)) else none := by
  intro n
  induction n with
  | zero =>
    intro a
    rw [if_neg (by omega)]
    rfl
  | succ n ih =>
    intro a
    rw [List.range'_succ, List.map_cons]
    by_cases ha : a = w * y + x
    · have hkey : a % w = x ∧ a / w = y ∧ (0 : Nat) = 0 := by
        subst ha
        refine ⟨?_, ?_, rfl⟩
        · rw [Nat.mul_add_mod, Nat.mod_eq_of_lt hx]
        · rw [Nat.mul_add_div hw, Nat.div_eq_of_lt hx, Nat.add_zero]
      rw [cellsGet, if_pos hkey, ha, if_pos (by omega)]
    · have hkey : ¬ (a % w = x ∧ a / w = y ∧ (0 : Nat) = 0) := by
        intro hk
        apply ha
        have := Nat.div_add_mod a w
        rw [hk.1, hk.2.1] at this
        omega
      rw [cellsGet, if_neg hkey, ih (a + 1)]
      by_cases hc : a + 1 ≤ w * y + x ∧ w * y + x < a + 1 + n
      · rw [if_pos hc, if_pos (by omega)]
      · rw [if_neg hc, if_neg (by omega)]

theorem cellsGet_tableCells (w n : Nat) (hw : 0 < w) (f : Nat → Nat) (x y : Nat)
    (hx : x < w) :
    cellsGet (tableCells w n f) x y 0 =
      if w * y + x < n then some (f (w * y + x)) else none := by
  unfold tableCells
  rw [List.range_eq_range', cellsGet_range' w hw f x y hx n 0]
  by_cases hc : w * y + x < n
  · rw [if_pos hc, if_pos (by omega)]
  · rw [if_neg hc, if_neg (by omega)]

theorem get_table (w h n : Nat) (f : Nat → Nat) (hw : 0 < w) (x y z : Nat) :
    Grid.get ⟨w, h, 1, tableCells w n f⟩ x y z =
      if x < w ∧ y < h ∧ z = 0 ∧ w * y + x < n then f (w * y + x) else 0 := by
  unfold Grid.get
  dsimp only
  by_cases hb : x < w ∧ y < h ∧ z < 1
  · rw [if_pos hb]
    obtain ⟨hx, hy, hz⟩ := hb
    have hz0 : z = 0 := by omega
    subst hz0
    rw [cellsGet_tableCells w n hw f x y hx]
    by_cases hq : w * y + x < n
    · rw [if_pos hq, if_pos ⟨hx, hy, rfl, hq⟩]
      rfl
    · rw [if_neg hq, if_neg (by tauto)]
      rfl
  · rw [if_neg hb, if_neg (by
      intro hc
      exact hb ⟨hc.1, hc.2.1, by omega⟩)]

theorem and_mask_of_mod (v : Nat) (hm : v % 256 = 0) (hv : v < 4294967296) :
    v &&& 0xffffff00 = v := by
  apply Nat.eq_of_testBit_eq
  intro i
  rw [Nat.testBit_land]
  by_cases h8 : i < 8
  · have hb : v.testBit i = false := by
      have h1 : v.testBit i = (v % 2 ^ 8).testBit i := by
        rw [Nat.testBit_mod_two_pow]
        simp [h8]
      rw [h1, show (2 : Nat) ^ 8 = 256 from rfl, hm]
      exact Nat.zero_testBit i
    rw [hb, Bool.false_and]
  · by_cases h32 : i < 32
    · have hmask : (0xffffff00 : Nat).testBit i = true := by
        interval_cases i <;> decide
      rw [hmask, Bool.and_true]
    · have hvb : v.testBit i = false := by
        apply Nat.testBit_lt_two_pow
        calc v < 4294967296 := hv
          _ = 2 ^ 32 := by norm_num
          _ ≤ 2 ^ i := Nat.pow_le_pow_right (by norm_num) (by omega)
      rw [hvb, Bool.false_and]

theorem filterMap_ite {α β : Type} (c : α → Prop) [DecidablePred c] (m : α → β) :
    ∀ l : List α,
      (l.filterMap fun a => if c a then some (m a) else none) =
        (l.filter fun a => decide (c a)).map m := by
  intro l
  induction l with
  | nil => rfl
  | cons a t ih =>
    by_cases h : c a
    · rw [List.filterMap_cons]
      simp only [if_pos h]
      rw [List.filter_cons_of_pos (by simpa using h), List.map_cons, ih]
    · rw [List.filterMap_cons]
      simp only [if_neg h]
      rw [List.filter_cons_of_neg (by simpa using h), ih]

theorem filter_range_lt (k n : Nat) :
    ∀ w, ((List.range w).filter fun x => decide (k + x < n)) =
      List.range (min w (n - k)) := by
  intro w
  induction w with
  | zero => simp
  | succ w ih =>
    rw [List.range_succ, List.filter_append, ih]
    by_cases h : k + w < n
    · rw [List.filter_cons_of_pos (by simpa using h), List.filter_nil,
        show min w (n - k) = w by omega, ← List.range_succ,
        show min (w + 1) (n - k) = w + 1 by omega]
    · rw [List.filter_cons_of_neg (by simpa using h), List.filter_nil,
        List.append_nil, show min (w + 1) (n - k) = min w (n - k) by omega]

theorem range_map_append {β : Type} (F : Nat → β) (k : Nat) :
    ∀ j, (List.range k).map F ++ (List.range j).map (fun x => F (k + x)) =
      (List.range (k + j)).map F := by
  intro j
  induction j with
  | zero => simp
  | succ j ih =>
    rw [List.range_succ, List.map_append, ← List.append_assoc, ih,
      show k + (j + 1) = (k + j) + 1 from rfl, List.range_succ, List.map_append]
    rfl

theorem loopOrder_depth1 (w h : Nat) (cells : List ((Nat × Nat × Nat) × Nat)) :
    loopOrder ⟨w, h, 1, cells⟩ =
      (List.range h).flatMap fun y => (List.range w).map fun x => (0, y, x) := by
  unfold loopOrder
  dsimp only
  rw [show List.range 1 = [0] from rfl, List.flatMap_cons, List.flatMap_nil,
    List.append_nil]

theorem maskedAux (g : Grid) (w n : Nat) (f : Nat → Nat)
    (hget : ∀ x y : Nat, x < w → g.get x y 0 = if w * y + x < n then f (w * y + x) else 0)
    (hf : ∀ i, i < n → f i ≠ 0) :
    ∀ h,
      (((List.range h).flatMap fun y => (List.range w).map fun x =>
          ((0 : Nat), y, x)).filterMap fun zyx =>
        if g.get zyx.2.2 zyx.2.1 zyx.1 ≠ 0
        then some (g.get zyx.2.2 zyx.2.1 zyx.1 &&& 0xffffff00) else none) =
      (List.range (min n (w * h))).map fun i => f i &&& 0xffffff00 := by
  intro h
  induction h with
  | zero => simp
  | succ h ih =>
    rw [List.range_succ, List.flatMap_append, List.filterMap_append, ih,
      List.flatMap_cons, List.flatMap_nil, List.append_nil, List.filterMap_map]
    have hpt : ∀ x ∈ List.range w,
        ((fun zyx => if g.get zyx.2.2 zyx.2.1 zyx.1 ≠ 0
            then some (g.get zyx.2.2 zyx.2.1 zyx.1 &&& 0xffffff00) else none) ∘
          fun x => ((0 : Nat), h, x)) x =
        (fun x => if w * h + x < n
            then some (f (w * h + x) &&& 0xffffff00) else none) x := by
      intro x hx
      rw [List.mem_range] at hx
      dsimp only [Function.comp]
      rw [hget x h hx]
      by_cases hq : w * h + x < n
      · rw [if_pos hq, if_pos hq, if_pos (hf _ hq)]
      · rw [if_neg hq, if_neg hq, if_neg (by simp)]
    rw [List.filterMap_congr hpt]
    rw [show (fun x => if w * h + x < n
          then some (f (w * h + x) &&& 0xffffff00) else none) =
        (fun x => if w * h + x < n
          then some ((fun i => f i &&& 0xffffff00) (w * h + x)) else none) from rfl,
      filterMap_ite (fun x => w * h + x < n) (fun x => (fun i => f i &&& 0xffffff00) (w * h + x)),
      filter_range_lt (w * h) n w]
    by_cases hn1 : w * h ≤ n
    · rw [show min n (w * h) = w * h by omega]
      rw [show (fun x => (fun i => f i &&& 0xffffff00) (w * h + x)) =
          (fun x => (fun i => f i &&& 0xffffff00) (w * h + x)) from rfl]
      rw [range_map_append (fun i => f i &&& 0xffffff00) (w * h) (min w (n - w * h))]
      have : w * h + min w (n - w * h) = min n (w * (h + 1)) := by
        rw [Nat.mul_succ]
        omega
      rw [this]
    · rw [show min n (w * h) = n by omega,
        show min w (n - w * h) = 0 by omega]
      rw [show List.range 0 = [] from rfl, List.map_nil, List.append_nil,
        show min n (w * (h + 1)) = n by rw [Nat.mul_succ]; omega]

theorem nonEmptyCount_eq_masked_length (g : Grid) :
    ∀ l : List (Nat × Nat × Nat),
      nonEmptyCount g l =
        (l.filterMap fun zyx =>
          if g.get zyx.2.2 zyx.2.1 zyx.1 ≠ 0
          then some (g.get zyx.2.2 zyx.2.1 zyx.1 &&& 0xffffff00) else none).length := by
  intro l
  induction l with
  | nil => rfl
  | cons a t ih =>
    unfold nonEmptyCount at ih ⊢
    rw [List.filterMap_cons]
    by_cases h : g.get a.2.2 a.2.1 a.1 = 0
    · rw [List.filter_cons_of_neg (by simp [h])]
      simp only [h]
      rw [if_neg (by simp)]
      exact ih
    · rw [List.filter_cons_of_pos (by simp [h])]
      simp only [if_pos h]
      rw [List.length_cons, List.length_cons, ih]

theorem dlookup_dinsert_isSome (d : List (Nat × Nat)) (k v k2 : Nat) :
    (dlookup (dinsert d k v) k2).isSome = true ↔
      (dlookup d k2).isSome = true ∨ k2 = k := by
  induction d with
  | nil =>
    simp only [dinsert, dlookup]
    by_cases h : k = k2
    · simp [h]
    · simp [h]
      intro h2
      exact absurd h2.symm h
  | cons p rest ih =>
    obtain ⟨k3, v3⟩ := p
    by_cases h3 : k3 = k
    · subst h3
      simp only [dinsert, if_pos rfl]
      by_cases h2 : k3 = k2
      · simp [dlookup, h2]
      · simp [dlookup, h2]
        intro hk
        exact absurd hk.symm h2
    · simp only [dinsert, if_neg h3]
      by_cases h2 : k3 = k2
      · simp [dlookup, h2]
      · simp only [dlookup, if_neg h2]
        exact ih

theorem scanFold_fresh (g : Grid) :
    ∀ (l : List (Nat × Nat × Nat)) (s : ScanSt),
      (∀ c ∈ l, goodCell g c) →
      (∀ k, (dlookup s.palette k).isSome = true → k < s.idx) →
      s.idx + nonEmptyCount g l ≤ 256 →
      (l.foldl (scanStep g) s).voxel_count = s.voxel_count + nonEmptyCount g l ∧
      (l.foldl (scanStep g) s).idx = s.idx + nonEmptyCount g l ∧
      (∀ k, (dlookup (l.foldl (scanStep g) s).palette k).isSome = true →
        k < (l.foldl (scanStep g) s).idx) := by
  intro l
  induction l with
  | nil =>
    intro s h1 h2 h3
    refine ⟨by simp [nonEmptyCount], by simp [nonEmptyCount], by simpa using h2⟩
  | cons c rest ih =>
    intro s h1 h2 h3
    obtain ⟨z, y, x⟩ := c
    obtain ⟨vc, pm, pal, idx⟩ := s
    dsimp only at h2 h3
    by_cases hv : g.get x y z = 0
    · have hstep : scanStep g ⟨vc, pm, pal, idx⟩ (z, y, x) = ⟨vc, pm, pal, idx⟩ := by
        simp [scanStep, hv]
      have hcnt : nonEmptyCount g ((z, y, x) :: rest) = nonEmptyCount g rest := by
        simp [nonEmptyCount, List.filter_cons, hv]
      rw [List.foldl_cons, hstep]
      have hres := ih ⟨vc, pm, pal, idx⟩ (fun c hc => h1 c (List.mem_cons_of_mem _ hc)) h2
        (by rw [hcnt] at h3; exact h3)
      rw [hcnt]
      exact hres
    · have hgood := h1 (z, y, x) (List.mem_cons_self _ _)
      have hcol : 256 ≤ g.get x y z &&& 0xffffff00 := by
        rcases hgood with h | h
        · exact absurd h hv
        · exact h
      have hcnt : nonEmptyCount g ((z, y, x) :: rest) = nonEmptyCount g rest + 1 := by
        simp only [nonEmptyCount, List.filter_cons]
        rw [if_pos (by simpa using hv)]
        simp [Nat.add_comm]
      have hmem : (dlookup pal (g.get x y z &&& 0xffffff00)).isSome = false := by
        by_contra hc
        have hs : (dlookup pal (g.get x y z &&& 0xffffff00)).isSome = true := by
          revert hc
          cases (dlookup pal (g.get x y z &&& 0xffffff00)).isSome <;> simp
        have hlt := h2 _ hs
        omega
      have hstep : scanStep g ⟨vc, pm, pal, idx⟩ (z, y, x) =
          ⟨vc + 1, dinsert pm (g.get x y z &&& 0xffffff00) idx,
            dinsert pal idx (g.get x y z &&& 0xffffff00), idx + 1⟩ := by
        simp [scanStep, hv, hmem]
      have hinv2 : ∀ k,
          (dlookup (dinsert pal idx (g.get x y z &&& 0xffffff00)) k).isSome = true →
          k < idx + 1 := by
        intro k hk
        rcases (dlookup_dinsert_isSome pal idx _ k).1 hk with h | h
        · have := h2 k h
          simp only at this
          omega
        · omega
      rw [List.foldl_cons, hstep]
      have hres := ih ⟨vc + 1, dinsert pm (g.get x y z &&& 0xffffff00) idx,
          dinsert pal idx (g.get x y z &&& 0xffffff00), idx + 1⟩
        (fun c hc => h1 c (List.mem_cons_of_mem _ hc)) hinv2
        (by rw [hcnt] at h3; simp only; omega)
      obtain ⟨e1, e2, e3⟩ := hres
      refine ⟨?_, ?_, e3⟩
      · rw [e1, hcnt]
        simp only
        omega
      · rw [e2, hcnt]
        simp only
        omega

/-- The scan of a grid whose non-empty cells all carry masked colors of at
least 256: the counter idx counts exactly the non-empty cells (one fresh
palette entry per voxel, given the buggy membership test of line 73). -/
theorem scan_fresh (g : Grid) (h1 : ∀ c ∈ loopOrder g, goodCell g c)
    (h3 : nonEmptyCount g (loopOrder g) ≤ 256) :
    (scan g).voxel_count = nonEmptyCount g (loopOrder g) ∧
    (scan g).idx = nonEmptyCount g (loopOrder g) ∧
    (∀ k, (dlookup (scan g).palette k).isSome = true → k < (scan g).idx) := by
  have hres := scanFold_fresh g (loopOrder g) ⟨0, [], [], 0⟩ h1
    (by intro k hk; simp [dlookup] at hk) (by simpa using h3)
  unfold scan
  obtain ⟨e1, e2, e3⟩ := hres
  exact ⟨by simpa using e1, by simpa using e2, e3⟩

theorem hget_table (w h n : Nat) (f : Nat → Nat) (hw : 0 < w) (hn : n ≤ w * h) :
    ∀ x y : Nat, x < w →
      Grid.get ⟨w, h, 1, tableCells w n f⟩ x y 0 =
        if w * y + x < n then f (w * y + x) else 0 := by
  intro x y hx
  rw [get_table w h n f hw]
  by_cases hy : y < h
  · by_cases hq : w * y + x < n
    · rw [if_pos ⟨hx, hy, rfl, hq⟩, if_pos hq]
    · rw [if_neg (by tauto), if_neg hq]
  · have hge : w * h ≤ w * y := Nat.mul_le_mul_left w (by omega)
    rw [if_neg (by tauto), if_neg (by omega)]

theorem maskedColors_table (w h n : Nat) (f : Nat → Nat) (hw : 0 < w) (hn : n ≤ w * h)
    (hf : ∀ i, i < n → f i ≠ 0) :
    maskedColors ⟨w, h, 1, tableCells w n f⟩ =
      (List.range n).map fun i => f i &&& 0xffffff00 := by
  unfold maskedColors
  rw [loopOrder_depth1]
  rw [maskedAux ⟨w, h, 1, tableCells w n f⟩ w n f (hget_table w h n f hw hn) hf h]
  rw [show min n (w * h) = n by omega]

theorem nonEmptyCount_table (w h n : Nat) (f : Nat → Nat) (hw : 0 < w) (hn : n ≤ w * h)
    (hf : ∀ i, i < n → f i ≠ 0) :
    nonEmptyCount ⟨w, h, 1, tableCells w n f⟩
      (loopOrder ⟨w, h, 1, tableCells w n f⟩) = n := by
  rw [loopOrder_depth1]
  rw [nonEmptyCount_eq_masked_length]
  rw [maskedAux ⟨w, h, 1, tableCells w n f⟩ w n f (hget_table w h n f hw hn) hf h]
  rw [List.length_map, List.length_range]
  omega

theorem table_good (w h n : Nat) (f : Nat → Nat) (hw : 0 < w)
    (hf : ∀ i, i < n → 256 ≤ f i ∧ f i % 256 = 0 ∧ f i < 4294967296) :
    ∀ c ∈ loopOrder ⟨w, h, 1, tableCells w n f⟩,
      goodCell ⟨w, h, 1, tableCells w n f⟩ c := by
  intro c _
  obtain ⟨z, y, x⟩ := c
  unfold goodCell
  dsimp only
  rw [get_table w h n f hw]
  by_cases hcond : x < w ∧ y < h ∧ z = 0 ∧ w * y + x < n
  · rw [if_pos hcond]
    obtain ⟨h1, h2, h3⟩ := hf _ hcond.2.2.2
    right
    rw [and_mask_of_mod _ h2 h3]
    exact h1
  · rw [if_neg hcond]
    left
    rfl

theorem hf4_big : ∀ i, i < 256 →
    256 ≤ (if i = 255 then 256 else (i + 1) * 256) ∧
    (if i = 255 then 256 else (i + 1) * 256) % 256 = 0 ∧
    (if i = 255 then 256 else (i + 1) * 256) < 4294967296 := by
  intro i hi
  by_cases h : i = 255
  · rw [if_pos h]
    refine ⟨le_refl _, rfl, by norm_num⟩
  · rw [if_neg h]
    refine ⟨by omega, Nat.mul_mod_left _ _, by omega⟩

theorem hf4_ne : ∀ i, i < 256 → (if i = 255 then 256 else (i + 1) * 256) ≠ 0 := by
  intro i hi
  have := hf4_big i hi
  omega

theorem hf5_big : ∀ i, i < 255 →
    256 ≤ (i + 1) * 256 ∧ (i + 1) * 256 % 256 = 0 ∧ (i + 1) * 256 < 4294967296 := by
  intro i hi
  refine ⟨by omega, Nat.mul_mod_left _ _, by omega⟩

theorem hf5_ne : ∀ i, i < 255 → (i + 1) * 256 ≠ 0 := by
  intro i hi
  omega

theorem g4_good : ∀ c ∈ loopOrder g4, goodCell g4 c := by
  show ∀ c ∈ loopOrder ⟨16, 16, 1, tableCells 16 256 fun i =>
    if i = 255 then 256 else (i + 1) * 256⟩, goodCell _ c
  exact table_good 16 16 256 _ (by norm_num) hf4_big

theorem g4_count : nonEmptyCount g4 (loopOrder g4) = 256 := by
  show nonEmptyCount ⟨16, 16, 1, tableCells 16 256 fun i =>
    if i = 255 then 256 else (i + 1) * 256⟩ _ = 256
  exact nonEmptyCount_table 16 16 256 _ (by norm_num) (by norm_num) hf4_ne

theorem g5_good : ∀ c ∈ loopOrder g5, goodCell g5 c := by
  show ∀ c ∈ loopOrder ⟨16, 16, 1, tableCells 16 255 fun i => (i + 1) * 256⟩, goodCell _ c
  exact table_good 16 16 255 _ (by norm_num) hf5_big

theorem g5_count : nonEmptyCount g5 (loopOrder g5) = 255 := by
  show nonEmptyCount ⟨16, 16, 1, tableCells 16 255 fun i => (i + 1) * 256⟩ _ = 255
  exact nonEmptyCount_table 16 16 255 _ (by norm_num) (by norm_num) hf5_ne

theorem g10bad_good : ∀ c ∈ loopOrder g10bad, goodCell g10bad c := by
  show ∀ c ∈ loopOrder ⟨128, 2, 1, tableCells 128 256 fun _ => 256⟩, goodCell _ c
  exact table_good 128 2 256 _ (by norm_num) (fun i _ => ⟨le_refl _, rfl, by norm_num⟩)

theorem g10bad_count : nonEmptyCount g10bad (loopOrder g10bad) = 256 := by
  show nonEmptyCount ⟨128, 2, 1, tableCells 128 256 fun _ => 256⟩ _ = 256
  exact nonEmptyCount_table 128 2 256 _ (by norm_num) (by norm_num) (fun i _ => by norm_num)

theorem maskedColors_g4 :
    maskedColors g4 = ((List.range 255).map fun i => (i + 1) * 256) ++ [256] := by
  show maskedColors ⟨16, 16, 1, tableCells 16 256 fun i =>
    if i = 255 then 256 else (i + 1) * 256⟩ = _
  rw [maskedColors_table 16 16 256 _ (by norm_num) (by norm_num) hf4_ne]
  decide

theorem maskedColors_g5 :
    maskedColors g5 = (List.range 255).map fun i => (i + 1) * 256 := by
  show maskedColors ⟨16, 16, 1, tableCells 16 255 fun i => (i + 1) * 256⟩ = _
  rw [maskedColors_table 16 16 255 _ (by norm_num) (by norm_num) hf5_ne]
  apply List.map_congr_left
  intro i hi
  rw [List.mem_range] at hi
  exact and_mask_of_mod _ (Nat.mul_mod_left _ _) (by omega)

theorem nodup_colorRange : (((List.range 255).map fun i => (i + 1) * 256)).Nodup :=
  List.Nodup.map (fun a b h => by omega) (List.nodup_range 255)

theorem specDistinct_g5 : specDistinctColors g5 = 255 := by
  unfold specDistinctColors
  rw [maskedColors_g5, List.Nodup.dedup nodup_colorRange, List.length_map,
    List.length_range]

theorem specDistinct_g4 : specDistinctColors g4 = 255 := by
  unfold specDistinctColors
  rw [maskedColors_g4, ← List.card_toFinset, List.toFinset_append]
  have h256 : (256 : Nat) ∈ ((List.range 255).map fun i => (i + 1) * 256).toFinset := by
    rw [List.mem_toFinset, List.mem_map]
    exact ⟨0, by simp, by norm_num⟩
  have hsub : ([256] : List Nat).toFinset ⊆
      ((List.range 255).map fun i => (i + 1) * 256).toFinset := by
    intro a ha
    simp only [List.toFinset_cons, List.toFinset_nil] at ha
    have : a = 256 := by simpa using ha
    rw [this]
    exact h256
  rw [Finset.union_eq_left.mpr hsub]
  rw [List.card_toFinset, List.Nodup.dedup nodup_colorRange, List.length_map,
    List.length_range]

theorem scan_g4_idx : (scan g4).idx = 256 := by
  have h := scan_fresh g4 g4_good (by rw [g4_count])
  rw [h.2.1, g4_count]

theorem save_g4_error : save g4 = Except.error (Err.palette 256) := by
  unfold save
  dsimp only
  rw [scan_g4_idx]
  simp

theorem scan_g5_idx : (scan g5).idx = 255 := by
  have h := scan_fresh g5 g5_good (by rw [g5_count]; omega)
  rw [h.2.1, g5_count]

theorem save_g5_ok : exceptIsOk (save g5) = true := by
  unfold save
  rw [if_neg (by rw [scan_g5_idx]; omega)]
  rfl

theorem g5_slot255_none : dlookup (scan g5).palette 255 = none := by
  have h := scan_fresh g5 g5_good (by rw [g5_count]; omega)
  cases hd : dlookup (scan g5).palette 255 with
  | none => rfl
  | some v =>
    have hlt := h.2.2 255 (by rw [hd]; rfl)
    rw [h.2.1, g5_count] at hlt
    omega

theorem rgbaEntry_of_none (pal : List (Nat × Nat)) (i : Nat)
    (h : dlookup pal i = none) : rgbaEntry pal i = [255, 255, 255, 255] := by
  unfold rgbaEntry
  rw [h]

theorem g5_rgba255 : rgbaEntry (scan g5).palette 255 = [255, 255, 255, 255] :=
  rgbaEntry_of_none _ _ g5_slot255_none

theorem g5_lookup255 : ((scan g5).palette.lookup 255).isNone = true := by
  rw [← dlookup_eq_lookup, g5_slot255_none]
  rfl

theorem scan_g10bad_idx : (scan g10bad).idx = 256 := by
  have h := scan_fresh g10bad g10bad_good (by rw [g10bad_count])
  rw [h.2.1, g10bad_count]

theorem save_g10bad_error : save g10bad = Except.error (Err.palette 256) := by
  unfold save
  dsimp only
  rw [scan_g10bad_idx]
  simp

theorem scan_g7_eq : scan g7 = ⟨1, [(270544896, 0)], [(0, 270544896)], 1⟩ := by decide

theorem sizeChunk_g7_eq : sizeChunk g7 = [83, 73, 90, 69, 12, 0, 0, 0, 0, 0, 0, 0, 10, 0, 0, 0, 10, 0, 0, 0, 10, 0, 0, 0] := by decide

theorem rgbaChunk_g7_eq :
    rgbaChunk ⟨1, [(270544896, 0)], [(0, 270544896)], 1⟩ = [82, 71, 66, 65, 0, 4, 0, 0, 0, 0, 0, 0, 16, 32, 48, 255, 255, 255, 255, 255, 255, 255, 255, 255, 255, 255, 255, 255, 255, 255, 255, 255, 255, 255, 255, 255, 255, 255, 255, 255, 255, 255, 255, 255, 255, 255, 255, 255, 255, 255, 255, 255, 255, 255, 255, 255, 255, 255, 255, 255, 255, 255, 255, 255, 255, 255, 255, 255, 255, 255, 255, 255, 255, 255, 255, 255, 255, 255, 255, 255, 255, 255, 255, 255, 255, 255, 255, 255, 255, 255, 255, 255, 255, 255, 255, 255, 255, 255, 255, 255, 255, 255, 255, 255, 255, 255, 255, 255, 255, 255, 255, 255, 255, 255, 255, 255, 255, 255, 255, 255, 255, 255, 255, 255, 255, 255, 255, 255, 255, 255, 255, 255, 255, 255, 255, 255, 255, 255, 255, 255, 255, 255, 255, 255, 255, 255, 255, 255, 255, 255, 255, 255, 255, 255, 255, 255, 255, 255, 255, 255, 255, 255, 255, 255, 255, 255, 255, 255, 255, 255, 255, 255, 255, 255, 255, 255, 255, 255, 255, 255, 255, 255, 255, 255, 255, 255, 255, 255, 255, 255, 255, 255, 255, 255, 255, 255, 255, 255, 255, 255, 255, 255, 255, 255, 255, 255, 255, 255, 255, 255, 255, 255, 255, 255, 255, 255, 255, 255, 255, 255, 255, 255, 255, 255, 255, 255, 255, 255, 255, 255, 255, 255, 255, 255, 255, 255, 255, 255, 255, 255, 255, 255, 255, 255, 255, 255, 255, 255, 255, 255, 255, 255, 255, 255, 255, 255, 255, 255, 255, 255, 255, 255, 255, 255, 255, 255, 255, 255, 255, 255, 255, 255, 255, 255, 255, 255, 255, 255, 255, 255, 255, 255, 255, 255, 255, 255, 255, 255, 255, 255, 255, 255, 255, 255, 255, 255, 255, 255, 255, 255, 255, 255, 255, 255, 255, 255, 255, 255, 255, 255, 255, 255, 255, 255, 255, 255, 255, 255, 255, 255, 255, 255, 255, 255, 255, 255, 255, 255, 255, 255, 255, 255, 255, 255, 255, 255, 255, 255, 255, 255, 255, 255, 255, 255, 255, 255, 255, 255, 255, 255, 255, 255, 255, 255, 255, 255, 255, 255, 255, 255, 255, 255, 255, 255, 255, 255, 255, 255, 255, 255, 255, 255, 255, 255, 255, 255, 255, 255, 255, 255, 255, 255, 255, 255, 255, 255, 255, 255, 255, 255, 255, 255, 255, 255, 255, 255, 255, 255, 255, 255, 255, 255, 255, 255, 255, 255, 255, 255, 255, 255, 255, 255, 255, 255, 255, 255, 255, 255, 255, 255, 255, 255, 255, 255, 255, 255, 255, 255, 255, 255, 255, 255, 255, 255, 255, 255, 255, 255, 255, 255, 255, 255, 255, 255, 255, 255, 255, 255, 255, 255, 255, 255, 255, 255, 255, 255, 255, 255, 255, 255, 255, 255, 255, 255, 255, 255, 255, 255, 255, 255, 255, 255, 255, 255, 255, 255, 255, 255, 255, 255, 255, 255, 255, 255, 255, 255, 255, 255, 255, 255, 255, 255, 255, 255, 255, 255, 255, 255, 255, 255, 255, 255, 255, 255, 255, 255, 255, 255, 255, 255, 255, 255, 255, 255, 255, 255, 255, 255, 255, 255, 255, 255, 255, 255, 255, 255, 255, 255, 255, 255, 255, 255, 255, 255, 255, 255, 255, 255, 255, 255, 255, 255, 255, 255, 255, 255, 255, 255, 255, 255, 255, 255, 255, 255, 255, 255, 255, 255, 255, 255, 255, 255, 255, 255, 255, 255, 255, 255, 255, 255, 255, 255, 255, 255, 255, 255, 255, 255, 255, 255, 255, 255, 255, 255, 255, 255, 255, 255, 255, 255, 255, 255, 255, 255, 255, 255, 255, 255, 255, 255, 255, 255, 255, 255, 255, 255, 255, 255, 255, 255, 255, 255, 255, 255, 255, 255, 255, 255, 255, 255, 255, 255, 255, 255, 255, 255, 255, 255, 255, 255, 255, 255, 255, 255, 255, 255, 255, 255, 255, 255, 255, 255, 255, 255, 255, 255, 255, 255, 255, 255, 255, 255, 255, 255, 255, 255, 255, 255, 255, 255, 255, 255, 255, 255, 255, 255, 255, 255, 255, 255, 255, 255, 255, 255, 255, 255, 255, 255, 255, 255, 255, 255, 255, 255, 255, 255, 255, 255, 255, 255, 255, 255, 255, 255, 255, 255, 255, 255, 255, 255, 255, 255, 255, 255, 255, 255, 255, 255, 255, 255, 255, 255, 255, 255, 255, 255, 255, 255, 255, 255, 255, 255, 255, 255, 255, 255, 255, 255, 255, 255, 255, 255, 255, 255, 255, 255, 255, 255, 255, 255, 255, 255, 255, 255, 255, 255, 255, 255, 255, 255, 255, 255, 255, 255, 255, 255, 255, 255, 255, 255, 255, 255, 255, 255, 255, 255, 255, 255, 255, 255, 255, 255, 255, 255, 255, 255, 255, 255, 255, 255, 255, 255, 255, 255, 255, 255, 255, 255, 255, 255, 255, 255, 255, 255, 255, 255, 255, 255, 255, 255, 255, 255, 255, 255, 255, 255, 255, 255, 255, 255, 255, 255, 255, 255, 255, 255, 255, 255, 255, 255, 255, 255, 255, 255, 255, 255, 255, 255, 255, 255, 255, 255, 255, 255, 255, 255, 255, 255, 255, 255, 255, 255, 255, 255, 255, 255, 255, 255, 255, 255, 255, 255, 255, 255, 255, 255, 255, 255, 255, 255, 255, 255, 255, 255, 255, 255, 255, 255, 255, 255, 255, 255, 255, 255, 255, 255, 255, 255, 255, 255, 255, 255, 255, 255, 255, 255, 255, 255, 255, 255, 255, 255, 255, 255, 255, 255, 255, 255, 255, 255, 255, 255, 255, 255, 255, 255, 255, 255, 255, 255, 255, 255, 255, 255, 255, 255, 255, 255, 255, 255, 255, 255, 255, 255, 255, 255, 255, 255, 255, 255, 255, 255, 255, 255, 255, 255, 255, 255, 255, 255, 255, 255, 255, 255, 255, 255, 255, 255, 255, 255, 255, 255, 255, 255, 255, 255, 255, 255, 255, 255, 255, 255, 255, 255, 255, 255, 255, 255, 255, 255, 255, 255, 255, 255, 255, 255, 255, 255, 255, 255, 255, 255, 255, 255, 255, 255, 255, 255, 255, 255, 255, 255, 255, 255, 255, 255, 255, 255, 255, 255, 255, 255, 255, 255, 255, 255, 255, 255, 255, 255, 255, 255, 255, 255, 255, 255, 255, 255, 255, 255, 255, 255, 255, 255, 255, 255, 255, 255, 255, 255, 255, 255, 255, 255, 255, 255] := by decide

theorem xyziChunk_g7_eq :
    xyziChunk g7 ⟨1, [(270544896, 0)], [(0, 270544896)], 1⟩ = [88, 89, 90, 73, 8, 0, 0, 0, 0, 0, 0, 0, 1, 0, 0, 0, 3, 9, 5, 0] := by decide

theorem save_g7_eq : save g7 = Except.ok file7 := by
  unfold save
  dsimp only
  rw [scan_g7_eq]
  unfold saveBytes
  rw [sizeChunk_g7_eq, rgbaChunk_g7_eq, xyziChunk_g7_eq]
  decide

theorem scan_g8_eq : scan g8 = ⟨1, [(16909056, 0)], [(0, 16909056)], 1⟩ := by decide

theorem sizeChunk_g8_eq : sizeChunk g8 = [83, 73, 90, 69, 12, 0, 0, 0, 0, 0, 0, 0, 2, 0, 0, 0, 2, 0, 0, 0, 2, 0, 0, 0] := by decide

theorem rgbaChunk_g8_eq :
    rgbaChunk ⟨1, [(16909056, 0)], [(0, 16909056)], 1⟩ = [82, 71, 66, 65, 0, 4, 0, 0, 0, 0, 0, 0, 1, 2, 3, 255, 255, 255, 255, 255, 255, 255, 255, 255, 255, 255, 255, 255, 255, 255, 255, 255, 255, 255, 255, 255, 255, 255, 255, 255, 255, 255, 255, 255, 255, 255, 255, 255, 255, 255, 255, 255, 255, 255, 255, 255, 255, 255, 255, 255, 255, 255, 255, 255, 255, 255, 255, 255, 255, 255, 255, 255, 255, 255, 255, 255, 255, 255, 255, 255, 255, 255, 255, 255, 255, 255, 255, 255, 255, 255, 255, 255, 255, 255, 255, 255, 255, 255, 255, 255, 255, 255, 255, 255, 255, 255, 255, 255, 255, 255, 255, 255, 255, 255, 255, 255, 255, 255, 255, 255, 255, 255, 255, 255, 255, 255, 255, 255, 255, 255, 255, 255, 255, 255, 255, 255, 255, 255, 255, 255, 255, 255, 255, 255, 255, 255, 255, 255, 255, 255, 255, 255, 255, 255, 255, 255, 255, 255, 255, 255, 255, 255, 255, 255, 255, 255, 255, 255, 255, 255, 255, 255, 255, 255, 255, 255, 255, 255, 255, 255, 255, 255, 255, 255, 255, 255, 255, 255, 255, 255, 255, 255, 255, 255, 255, 255, 255, 255, 255, 255, 255, 255, 255, 255, 255, 255, 255, 255, 255, 255, 255, 255, 255, 255, 255, 255, 255, 255, 255, 255, 255, 255, 255, 255, 255, 255, 255, 255, 255, 255, 255, 255, 255, 255, 255, 255, 255, 255, 255, 255, 255, 255, 255, 255, 255, 255, 255, 255, 255, 255, 255, 255, 255, 255, 255, 255, 255, 255, 255, 255, 255, 255, 255, 255, 255, 255, 255, 255, 255, 255, 255, 255, 255, 255, 255, 255, 255, 255, 255, 255, 255, 255, 255, 255, 255, 255, 255, 255, 255, 255, 255, 255, 255, 255, 255, 255, 255, 255, 255, 255, 255, 255, 255, 255, 255, 255, 255, 255, 255, 255, 255, 255, 255, 255, 255, 255, 255, 255, 255, 255, 255, 255, 255, 255, 255, 255, 255, 255, 255, 255, 255, 255, 255, 255, 255, 255, 255, 255, 255, 255, 255, 255, 255, 255, 255, 255, 255, 255, 255, 255, 255, 255, 255, 255, 255, 255, 255, 255, 255, 255, 255, 255, 255, 255, 255, 255, 255, 255, 255, 255, 255, 255, 255, 255, 255, 255, 255, 255, 255, 255, 255, 255, 255, 255, 255, 255, 255, 255, 255, 255, 255, 255, 255, 255, 255, 255, 255, 255, 255, 255, 255, 255, 255, 255, 255, 255, 255, 255, 255, 255, 255, 255, 255, 255, 255, 255, 255, 255, 255, 255, 255, 255, 255, 255, 255, 255, 255, 255, 255, 255, 255, 255, 255, 255, 255, 255, 255, 255, 255, 255, 255, 255, 255, 255, 255, 255, 255, 255, 255, 255, 255, 255, 255, 255, 255, 255, 255, 255, 255, 255, 255, 255, 255, 255, 255, 255, 255, 255, 255, 255, 255, 255, 255, 255, 255, 255, 255, 255, 255, 255, 255, 255, 255, 255, 255, 255, 255, 255, 255, 255, 255, 255, 255, 255, 255, 255, 255, 255, 255, 255, 255, 255, 255, 255, 255, 255, 255, 255, 255, 255, 255, 255, 255, 255, 255, 255, 255, 255, 255, 255, 255, 255, 255, 255, 255, 255, 255, 255, 255, 255, 255, 255, 255, 255, 255, 255, 255, 255, 255, 255, 255, 255, 255, 255, 255, 255, 255, 255, 255, 255, 255, 255, 255, 255, 255, 255, 255, 255, 255, 255, 255, 255, 255, 255, 255, 255, 255, 255, 255, 255, 255, 255, 255, 255, 255, 255, 255, 255, 255, 255, 255, 255, 255, 255, 255, 255, 255, 255, 255, 255, 255, 255, 255, 255, 255, 255, 255, 255, 255, 255, 255, 255, 255, 255, 255, 255, 255, 255, 255, 255, 255, 255, 255, 255, 255, 255, 255, 255, 255, 255, 255, 255, 255, 255, 255, 255, 255, 255, 255, 255, 255, 255, 255, 255, 255, 255, 255, 255, 255, 255, 255, 255, 255, 255, 255, 255, 255, 255, 255, 255, 255, 255, 255, 255, 255, 255, 255, 255, 255, 255, 255, 255, 255, 255, 255, 255, 255, 255, 255, 255, 255, 255, 255, 255, 255, 255, 255, 255, 255, 255, 255, 255, 255, 255, 255, 255, 255, 255, 255, 255, 255, 255, 255, 255, 255, 255, 255, 255, 255, 255, 255, 255, 255, 255, 255, 255, 255, 255, 255, 255, 255, 255, 255, 255, 255, 255, 255, 255, 255, 255, 255, 255, 255, 255, 255, 255, 255, 255, 255, 255, 255, 255, 255, 255, 255, 255, 255, 255, 255, 255, 255, 255, 255, 255, 255, 255, 255, 255, 255, 255, 255, 255, 255, 255, 255, 255, 255, 255, 255, 255, 255, 255, 255, 255, 255, 255, 255, 255, 255, 255, 255, 255, 255, 255, 255, 255, 255, 255, 255, 255, 255, 255, 255, 255, 255, 255, 255, 255, 255, 255, 255, 255, 255, 255, 255, 255, 255, 255, 255, 255, 255, 255, 255, 255, 255, 255, 255, 255, 255, 255, 255, 255, 255, 255, 255, 255, 255, 255, 255, 255, 255, 255, 255, 255, 255, 255, 255, 255, 255, 255, 255, 255, 255, 255, 255, 255, 255, 255, 255, 255, 255, 255, 255, 255, 255, 255, 255, 255, 255, 255, 255, 255, 255, 255, 255, 255, 255, 255, 255, 255, 255, 255, 255, 255, 255, 255, 255, 255, 255, 255, 255, 255, 255, 255, 255, 255, 255, 255, 255, 255, 255, 255, 255, 255, 255, 255, 255, 255, 255, 255, 255, 255, 255, 255, 255, 255, 255, 255, 255, 255, 255, 255, 255, 255, 255, 255, 255, 255, 255, 255, 255, 255, 255, 255, 255, 255, 255, 255, 255, 255, 255, 255, 255, 255, 255, 255, 255, 255, 255, 255, 255, 255, 255, 255, 255, 255, 255, 255, 255, 255, 255, 255, 255, 255, 255, 255, 255, 255, 255, 255, 255, 255, 255, 255, 255, 255, 255, 255, 255, 255, 255, 255, 255, 255, 255, 255, 255, 255, 255, 255, 255, 255, 255, 255, 255, 255, 255, 255, 255, 255, 255, 255, 255, 255, 255, 255, 255, 255, 255, 255, 255, 255, 255, 255, 255, 255, 255, 255, 255, 255, 255, 255, 255, 255, 255, 255, 255, 255, 255, 255, 255, 255, 255, 255, 255, 255, 255, 255, 255, 255, 255, 255, 255, 255, 255, 255, 255, 255, 255, 255, 255, 255, 255, 255, 255, 255] := by decide

theorem xyziChunk_g8_eq :
    xyziChunk g8 ⟨1, [(16909056, 0)], [(0, 16909056)], 1⟩ = [88, 89, 90, 73, 8, 0, 0, 0, 0, 0, 0, 0, 1, 0, 0, 0, 1, 1, 0, 0] := by decide

theorem file8plain_eq : file8plain = lit8plain := by
  unfold file8plain saveBytes
  rw [scan_g8_eq, sizeChunk_g8_eq, rgbaChunk_g8_eq, xyziChunk_g8_eq]
  decide

theorem file8note_eq : file8note = lit8note := by
  unfold file8note
  rw [scan_g8_eq, sizeChunk_g8_eq, rgbaChunk_g8_eq, xyziChunk_g8_eq]
  decide

theorem load_lit8plain :
    load 16 g0e lit8plain = some (Except.ok ⟨2, 2, 2, [((1, 0, 1), 16909311)]⟩, true) := by
  decide

theorem load_lit8note :
    load 16 g0e lit8note = some (Except.ok ⟨2, 2, 2, [((1, 0, 1), 16909311)]⟩, true) := by
  decide

theorem C8_loads_agree : load 16 g0e file8note = load 16 g0e file8plain := by
  rw [file8note_eq, file8plain_eq, load_lit8note, load_lit8plain]

theorem voxelRecords_g7_eq : voxelRecords g7 [(270544896, 0)] = [3, 9, 5, 0] := by decide

theorem load_file7_eq : load 16 g0e file7 =
    some (Except.ok ⟨10, 10, 10, [((3, 5, 9), 0x102030ff)]⟩, true) := by decide


/-- C1: the claimed round trip fails on the code.  For the 1 x 1 x 2 grid g1
(one voxel at (0,0,1), one distinct color, dimensions within the limits) the
counting pass reports 1 voxel but the axis-swapped writing pass emits no
record, so save declares one record it never writes, and load of the saved
file raises IndexError on the truncated XYZI body instead of reproducing the
grid. -/
theorem C1_roundtrip_fails_on_g1 :
    g1.width ≤ 127 ∧ g1.height ≤ 127 ∧ g1.depth ≤ 127 ∧
    specDistinctColors g1 = 1 ∧
    (scan g1).voxel_count = 1 ∧
    voxelRecords g1 (scan g1).paletteMap = [] ∧
    exceptIsOk (save g1) = true ∧
    load 16 g0e ((save g1).toOption.getD []) = some (Except.error Err.index, false) := by
  decide

/-- C2: there is a grid within the format's dimension and palette limits for
which the number of 4-byte records save emits into the XYZI chunk differs
from the count it writes into that chunk's count header, because the counting
pass reads get(x,y,z) while the record pass reads get(x,z,y). -/
theorem C2_record_count_diverges_from_header :
    ∃ g : Grid, g.width ≤ 127 ∧ g.height ≤ 127 ∧ g.depth ≤ 127 ∧
      exceptIsOk (save g) = true ∧
      (voxelRecords g (scan g).paletteMap).length / 4 ≠ (scan g).voxel_count :=
  ⟨g1, by decide⟩

/-- C3 (counterexample): the chunk-walking loop of load does not terminate on
every input byte stream: on a root chunk declaring a 1-byte budget with no
further bytes, the budget decreases by 16 forever and never equals zero. -/
theorem C3_walk_can_diverge : ¬ loadTerminates g0e c3bad := by
  intro hterm
  obtain ⟨fuel, hf⟩ := hterm
  rw [load_c3bad fuel] at hf
  exact Bool.noConfusion hf

/-- C3 (amended): whenever the chunk-walking loop exits normally, its
remaining-byte budget is exactly zero at that point - but normal exit is not
guaranteed for every input byte stream. -/
theorem C3_normal_exit_budget_zero :
    ∀ (fuel : Nat) (st : WalkSt),
      match loadLoop fuel st with
      | some (Except.ok st2) => st2.left = 0
      | _ => True := by
  intro fuel
  induction fuel with
  | zero => intro st; trivial
  | succ n ih =>
    intro st
    rw [loadLoop_succ]
    by_cases h : st.left = 0
    · rw [if_pos h]
      exact h
    · rw [if_neg h]
      cases hs : loadStep st with
      | error e => trivial
      | ok st2 => exact ih st2

/-- C4: the capacity check miscounts because line 73 tests the color against
the palette's index keys.  The grid g4 holds exactly 255 distinct masked
colors (one duplicated across two voxels) yet save raises the capacity error
reporting 256 colors, while g5 - the same 255 colors, each on one voxel -
saves with palette indices 0-254 and the sentinel entry in slot 255. -/
theorem C4_capacity_check_miscounts :
    specDistinctColors g4 = 255 ∧ (scan g4).idx = 256 ∧
    save g4 = Except.error (Err.palette 256) ∧
    specDistinctColors g5 = 255 ∧ (scan g5).idx = 255 ∧
    exceptIsOk (save g5) = true ∧
    ((scan g5).palette.lookup 255).isNone = true ∧
    rgbaEntry (scan g5).palette 255 = [255, 255, 255, 255] :=
  ⟨specDistinct_g4, scan_g4_idx, save_g4_error, specDistinct_g5, scan_g5_idx,
    save_g5_ok, g5_lookup255, g5_rgba255⟩

/-- C5 (counterexample): a grid with exactly 255 distinct alpha-masked colors
saves successfully, contradicting the claim that save raises once the
distinct-color count reaches or exceeds 255. -/
theorem C5_255_colors_save_succeeds :
    specDistinctColors g5 = 255 ∧ exceptIsOk (save g5) = true :=
  ⟨specDistinct_g5, save_g5_ok⟩

/-- C5 (amended): save raises the capacity error exactly when the scan's
palette counter idx has reached 256, so a grid whose scan counter stays at
255 or below saves successfully; the raise (line 81) precedes the open of the
output file (line 91), and the counter counts scanned voxels whose masked
color is not an already-used palette index rather than distinct colors. -/
theorem C5_capacity_error_iff_idx_reaches_256 :
    ∀ g : Grid, exceptIsOk (save g) = true ↔ (scan g).idx ≤ 255 := by
  intro g
  unfold save
  dsimp only
  by_cases h : 256 ≤ (scan g).idx
  · rw [if_pos h]
    constructor
    · intro hfalse
      exact Bool.noConfusion hfalse
    · intro hlt
      omega
  · rw [if_neg h]
    constructor
    · intro _
      omega
    · intro _
      rfl

/-- C6 (counterexample): for the one-voxel grid g1 the root chunk's
children-length field holds 1108 = 1104 + 4*1, not the claimed sum
1088 + 4*1 = 1092 of the three child chunk sizes. -/
theorem C6_children_length_is_not_1088_plus_4n :
    readU32 (((save g1).toOption.getD []).drop 16) = 1108 ∧
    (scan g1).voxel_count = 1 ∧ (1108 : Nat) ≠ 1088 + 4 * 1 := by
  decide

/-- C6 (amended): for every grid save accepts, the root chunk header carries
content length 0 and children length 1104 + 4*n for n scanned voxels: the
code adds an extra 16 (the size of the root header itself) on top of the
child chunk sizes (16+12) + (16+1024) + (16+4+4n) = 1088 + 4n. -/
theorem C6_children_length_field :
    ∀ g : Grid,
      match save g with
      | Except.ok bs =>
        (bs.drop 12).take 4 = u32 0 ∧
        (bs.drop 16).take 4 = u32 (1104 + 4 * (scan g).voxel_count)
      | Except.error _ => True := by
  intro g
  unfold save
  dsimp only
  by_cases h : 256 ≤ (scan g).idx
  · rw [if_pos h]
    trivial
  · rw [if_neg h]
    show ((saveBytes g (scan g)).drop 12).take 4 = u32 0 ∧
      ((saveBytes g (scan g)).drop 16).take 4 = u32 (1104 + 4 * (scan g).voxel_count)
    have hcm : chunk_main (scan g).voxel_count = 1104 + 4 * (scan g).voxel_count := by
      unfold chunk_main chunk_size chunk_rgba chunk_voxel
      ring
    rw [← hcm]
    unfold saveBytes
    constructor
    · simp [VOXtag, MAINtag, u32]
    · simp [VOXtag, MAINtag, u32]

/-- C7: a single voxel at in-memory (3,5,9) with color 0x10203000 in a
10 x 10 x 10 grid is emitted as exactly one record with coordinate bytes
(3,9,5), and load of the saved file sets exactly the in-memory cell (3,5,9)
to the palette-resolved color 0x102030ff. -/
theorem C7_axis_swap_roundtrip :
    voxelRecords g7 (scan g7).paletteMap = [3, 9, 5, 0] ∧
    exceptIsOk (save g7) = true ∧
    load 16 g0e ((save g7).toOption.getD []) =
      some (Except.ok ⟨10, 10, 10, [((3, 5, 9), 0x102030ff)]⟩, true) := by
  refine ⟨?_, ?_, ?_⟩
  · rw [scan_g7_eq]
    exact voxelRecords_g7_eq
  · rw [save_g7_eq]
    rfl
  · rw [save_g7_eq]
    exact load_file7_eq

/-- C8: a chunk whose tag is none of SIZE, RGBA, XYZI consumes exactly
content-length + children-length payload bytes past its header and leaves the
grid and the palette untouched; consequently the file with a NOTE chunk of
children length 0 inserted between the SIZE and RGBA chunks (root lengths
adjusted accordingly) loads to the same final state as the file without
it. -/
theorem C8_unknown_chunk_skipped :
    (∀ st : WalkSt,
      st.stream.take 4 ≠ SIZEtag → st.stream.take 4 ≠ RGBAtag → st.stream.take 4 ≠ XYZItag →
      loadStep st = Except.ok
        ⟨(((st.stream.drop 4).drop 4).drop 4).drop
            (readU32 (st.stream.drop 4) + readU32 ((st.stream.drop 4).drop 4)),
          st.left - 16 - (readU32 (st.stream.drop 4) : Int) +
            (readU32 ((st.stream.drop 4).drop 4) : Int),
          st.grid, st.palette⟩) ∧
    load 16 g0e file8note = load 16 g0e file8plain := by
  constructor
  · intro st h1 h2 h3
    unfold loadStep
    dsimp only
    rw [if_neg h1, if_neg h2, if_neg h3]
  · rw [file8note_eq, file8plain_eq, load_lit8note, load_lit8plain]

/-- C8 (witness): the skip equation instantiated at a concrete walk state
whose stream sits at the NOTE chunk. -/
theorem C8_unknown_chunk_skipped_witness :
    loadStep stNote = Except.ok
      ⟨(((stNote.stream.drop 4).drop 4).drop 4).drop
          (readU32 (stNote.stream.drop 4) + readU32 ((stNote.stream.drop 4).drop 4)),
        stNote.left - 16 - (readU32 (stNote.stream.drop 4) : Int) +
          (readU32 ((stNote.stream.drop 4).drop 4) : Int),
        stNote.grid, stNote.palette⟩ :=
  C8_unknown_chunk_skipped.1 stNote (by decide) (by decide) (by decide)

/-- C9 (counterexample): load of a file whose SIZE chunk declares width 128
exits through the capacity raise with the file handle left unclosed. -/
theorem C9_error_path_skips_close :
    load 16 g0e f128 = some (Except.error Err.dims, false) := by
  decide

/-- C9 (amended): load reaches the close of line 217 exactly on its normal
exit path - on every exceptional exit the raise propagates before the close,
leaving the handle open. -/
theorem C9_close_reached_iff_normal_exit :
    ∀ (fuel : Nat) (g0 : Grid) (bytes : List Nat),
      match load fuel g0 bytes with
      | some r => r.2 = exceptIsOk r.1
      | none => True := by
  intro fuel g0 bytes
  unfold load
  dsimp only
  by_cases h : bytes.take 4 ≠ VOXtag
  · rw [if_pos h]
    rfl
  · rw [if_neg h]
    exact finishLoad_closed _

/-- C10 (counterexample): save does not complete without error on every grid
with dimensions at most 255 and one beyond 127: the fully filled 128 x 2 x 1
grid g10bad drives the scan counter to the palette capacity, and save raises
the capacity error. -/
theorem C10_dimension_alone_does_not_ensure_save :
    g10bad.width = 128 ∧ g10bad.height ≤ 255 ∧ g10bad.depth ≤ 255 ∧
    save g10bad = Except.error (Err.palette 256) :=
  ⟨rfl, by decide, by decide, save_g10bad_error⟩

/-- C10 (amended): save performs no check of the 127 dimension limit: every
grid with dimensions at most 255, at least one beyond 127, whose color-scan
counter stays within the palette capacity, saves without error, and load of
the file it produced raises the capacity error while processing the SIZE
chunk (with the handle left open). -/
theorem C10_save_skips_dimension_check :
    ∀ (g g0 : Grid), g.width ≤ 255 → g.height ≤ 255 → g.depth ≤ 255 →
      (127 < g.width ∨ 127 < g.height ∨ 127 < g.depth) → (scan g).idx ≤ 255 →
      save g = Except.ok (saveBytes g (scan g)) ∧
      load 4 g0 (saveBytes g (scan g)) = some (Except.error Err.dims, false) := by
  intro g g0 hw hh hd hbig hidx
  have hcount : (scan g).voxel_count ≤ 255 * (255 * 255) :=
    le_trans (scan_voxel_count_le g) (Nat.mul_le_mul hd (Nat.mul_le_mul hh hw))
  have hcm : chunk_main (scan g).voxel_count < 4294967296 := by
    unfold chunk_main chunk_size chunk_rgba chunk_voxel
    omega
  constructor
  · unfold save
    rw [if_neg (by omega)]
  · have hB : saveBytes g (scan g) =
        VOXtag ++ (u32 150 ++ (MAINtag ++ (u32 0 ++ (u32 (chunk_main (scan g).voxel_count) ++
          (sizeChunk g ++ (rgbaChunk (scan g) ++ xyziChunk g (scan g))))))) := rfl
    rw [hB, load_eq_walk 4 g0 150 0 (chunk_main (scan g).voxel_count) _ (by norm_num) hcm]
    have hS : sizeChunk g ++ (rgbaChunk (scan g) ++ xyziChunk g (scan g)) =
        SIZEtag ++ (u32 12 ++ (u32 0 ++ (u32 g.width ++ (u32 g.height ++ (u32 g.depth ++
          (rgbaChunk (scan g) ++ xyziChunk g (scan g))))))) := by
      simp [sizeChunk, List.append_assoc]
    rw [hS]
    rw [show (4 : Nat) = 3 + 1 from rfl, loadLoop_succ]
    rw [if_neg (by
      show ¬(((0 : Nat) : Int) + ((chunk_main (scan g).voxel_count : Nat) : Int) = 0)
      have h1 : 1104 ≤ chunk_main (scan g).voxel_count := by
        unfold chunk_main chunk_size chunk_rgba chunk_voxel
        omega
      push_cast
      omega)]
    rw [loadStep_size_toobig _ g0 [] g.width g.height g.depth _
      (by omega) (by omega) (by omega) hbig]
    rfl

/-- C10 (witness): the amended statement applied to the 128 x 2 x 1 grid
g10. -/
theorem C10_save_skips_dimension_check_witness :
    save g10 = Except.ok (saveBytes g10 (scan g10)) ∧
    load 4 g0e (saveBytes g10 (scan g10)) = some (Except.error Err.dims, false) :=
  C10_save_skips_dimension_check g10 g0e (by decide) (by decide) (by decide)
    (by decide) (by decide)


end MagicaVoxel
